import Mathlib

/-!
# OpenSubdiv `Osd::D3D11DrawContext` : upload and teardown of patch tables

Shallow embedding of `opensubdiv/osd/d3d11DrawContext.cpp`.

* The Direct3D11 device is an external collaborator.  It is modelled by a
  script `Nat → HRESULT` giving the answer of the k-th fallible device call,
  a counter of fresh object identities, and a trace of every call issued.
* Machine integers are `Int`/`Nat` with explicit wrap-around: `int` and `UINT`
  are 32 bits wide, `size_t` is 64 bits wide (LLP64, the x64 Direct3D11 target).
* Table entries (`int`, `unsigned int`, `float`) are only ever copied by this
  file, so every entry is a raw 32-bit word.
-/

namespace OpenSubdiv.Osd

/-! ## Machine integers -/

/-- Conversion of an integer value to the 32-bit signed type `int` (two-complement wrap). -/
def toInt (z : Int) : Int := (z + 2147483648) % 4294967296 - 2147483648

/-- Conversion of an integer value to the 32-bit unsigned type `UINT` / `unsigned int`. -/
def toUINT (z : Int) : Nat := (z % 4294967296).toNat

/-- Conversion of an integer value to the 64-bit unsigned type `size_t`. -/
def toSizeT (z : Int) : Nat := (z % 18446744073709551616).toNat

/-- The value of `sizeof(int)`, `sizeof(unsigned int)` and `sizeof(float)`. -/
def sizeofWord : Nat := 4

/-! ## Data model -/

/-- A raw 32-bit memory word. -/
abbrev Word32 := Nat

/-- Identity of a device object (an `ID3D11Buffer*` or `ID3D11ShaderResourceView*`). -/
abbrev Handle := Nat

/-- Modelled from the spec: the type `Far::PatchParam` is declared outside this file;
`sizeof(PatchParam)` is taken as 8 bytes, i.e. two 32-bit words per entry. -/
structure PatchParam where
  faceIndex : Word32
  bitField : Word32
deriving DecidableEq, Repr

/-- Modelled from the spec: the value of `sizeof(Far::PatchParam)`, 8 bytes. -/
def sizeofPatchParam : Nat := 8

/-- The words seen through `reinterpret_cast<unsigned int const *>(&patchParamTables[0])`. -/
def patchParamWords : List PatchParam → List Word32
  | [] => []
  | p :: ps => p.faceIndex :: p.bitField :: patchParamWords ps

/-- The part of `Far::PatchTables` read by this file, one field per getter. -/
structure PatchTables where
  IsFeatureAdaptive : Bool
  GetPatchControlVerticesTable : List Word32
  GetPatchParamTable : List PatchParam
  GetSharpnessIndexTable : List Word32
  GetVertexValenceTable : List Word32
  GetQuadOffsetsTable : List Word32
  GetMaxValence : Int
deriving DecidableEq, Repr

inductive D3D11_USAGE
  | D3D11_USAGE_DEFAULT
  | D3D11_USAGE_DYNAMIC
deriving DecidableEq, Repr

inductive D3D11_BIND_FLAG
  | D3D11_BIND_INDEX_BUFFER
  | D3D11_BIND_SHADER_RESOURCE
deriving DecidableEq, Repr

inductive D3D11_CPU_ACCESS_FLAG
  | NONE
  | D3D11_CPU_ACCESS_WRITE
deriving DecidableEq, Repr

inductive DXGI_FORMAT
  | DXGI_FORMAT_R32_SINT
  | DXGI_FORMAT_R32_FLOAT
  | DXGI_FORMAT_R32G32_UINT
  | DXGI_FORMAT_R32G32B32_UINT
deriving DecidableEq, Repr

inductive D3D11_SRV_DIMENSION
  | D3D11_SRV_DIMENSION_BUFFER
deriving DecidableEq, Repr

structure D3D11_BUFFER_DESC where
  ByteWidth : Nat
  Usage : D3D11_USAGE
  BindFlags : D3D11_BIND_FLAG
  CPUAccessFlags : D3D11_CPU_ACCESS_FLAG
  MiscFlags : Nat
  StructureByteStride : Nat
deriving DecidableEq, Repr

structure D3D11_SHADER_RESOURCE_VIEW_DESC where
  Format : DXGI_FORMAT
  ViewDimension : D3D11_SRV_DIMENSION
  FirstElement : Nat
  NumElements : Nat
deriving DecidableEq, Repr

/-- The ten resource members of `D3D11DrawContext`; `&member` is the out-pointer of a
creation call. -/
inductive Slot
  | patchIndexBuffer
  | patchParamBuffer
  | patchParamBufferSRV
  | fvarDataBuffer
  | fvarDataBufferSRV
  | vertexBufferSRV
  | vertexValenceBuffer
  | vertexValenceBufferSRV
  | quadOffsetBuffer
  | quadOffsetBufferSRV
deriving DecidableEq, Repr

/-- The answer of the device to one fallible call: `failed` is `FAILED(hr)`; `clearsOut`
tells whether a failing creation call stores NULL through its out-pointer or leaves the
pointee untouched. -/
structure HRESULT where
  failed : Bool
  clearsOut : Bool
deriving DecidableEq, Repr

/-- The successful answer. -/
def S_OK : HRESULT := { failed := false, clearsOut := false }

/-- The value found behind the out-pointer after a creation call. -/
def HRESULT.out (hr : HRESULT) (old : Option Handle) (fresh : Handle) : Option Handle :=
  if hr.failed then (if hr.clearsOut then none else old) else some fresh

/-- One externally visible call, in the order issued. -/
inductive Call
  | GetDevice
  | CreateBuffer (bd : D3D11_BUFFER_DESC) (pSysMem : Option (List Word32)) (slot : Slot)
      (failed : Bool) (out : Option Handle)
  | CreateShaderResourceView (resource : Option Handle)
      (srvd : D3D11_SHADER_RESOURCE_VIEW_DESC) (slot : Slot) (failed : Bool)
      (out : Option Handle)
  | Map (resource : Option Handle) (failed : Bool)
  | memcpy (dst : Option Handle) (src : List Word32) (nbytes : Nat)
  | Unmap (resource : Option Handle)
  | ConvertPatchArrays (maxValence : Int) (numVertexElements : Int)
  | Release (h : Handle)
deriving DecidableEq, Repr

/-- The words a copy of `nbytes` bytes takes from the array `src`. -/
def wordsCopied (src : List Word32) (nbytes : Nat) : List Word32 :=
  src.take (nbytes / sizeofWord)

/-- The class `D3D11DrawContext`: its ten resource members and `_isAdaptive` of the base
class. -/
structure D3D11DrawContext where
  patchIndexBuffer : Option Handle
  patchParamBuffer : Option Handle
  patchParamBufferSRV : Option Handle
  fvarDataBuffer : Option Handle
  fvarDataBufferSRV : Option Handle
  vertexBufferSRV : Option Handle
  vertexValenceBuffer : Option Handle
  vertexValenceBufferSRV : Option Handle
  quadOffsetBuffer : Option Handle
  quadOffsetBufferSRV : Option Handle
  isAdaptive : Bool
deriving DecidableEq, Repr

/-- Read a resource member. -/
def D3D11DrawContext.get (c : D3D11DrawContext) : Slot → Option Handle
  | .patchIndexBuffer => c.patchIndexBuffer
  | .patchParamBuffer => c.patchParamBuffer
  | .patchParamBufferSRV => c.patchParamBufferSRV
  | .fvarDataBuffer => c.fvarDataBuffer
  | .fvarDataBufferSRV => c.fvarDataBufferSRV
  | .vertexBufferSRV => c.vertexBufferSRV
  | .vertexValenceBuffer => c.vertexValenceBuffer
  | .vertexValenceBufferSRV => c.vertexValenceBufferSRV
  | .quadOffsetBuffer => c.quadOffsetBuffer
  | .quadOffsetBufferSRV => c.quadOffsetBufferSRV

/-- Write a resource member. -/
def D3D11DrawContext.set (c : D3D11DrawContext) (slot : Slot) (v : Option Handle) :
    D3D11DrawContext :=
  match slot with
  | .patchIndexBuffer => { c with patchIndexBuffer := v }
  | .patchParamBuffer => { c with patchParamBuffer := v }
  | .patchParamBufferSRV => { c with patchParamBufferSRV := v }
  | .fvarDataBuffer => { c with fvarDataBuffer := v }
  | .fvarDataBufferSRV => { c with fvarDataBufferSRV := v }
  | .vertexBufferSRV => { c with vertexBufferSRV := v }
  | .vertexValenceBuffer => { c with vertexValenceBuffer := v }
  | .vertexValenceBufferSRV => { c with vertexValenceBufferSRV := v }
  | .quadOffsetBuffer => { c with quadOffsetBuffer := v }
  | .quadOffsetBufferSRV => { c with quadOffsetBufferSRV := v }

/-- The collaborators outside this file: the device script and the two packing helpers
of the base class `DrawContext`. -/
structure Env where
  device : Nat → HRESULT
  packSharpnessValues : PatchTables → List Word32
  packFVarData : PatchTables → Int → List Word32 → List Word32

/-- The device side of the world: number of fallible calls answered so far, next fresh
object identity, and the trace of calls. -/
structure Device where
  calls : Nat
  fresh : Nat
  trace : List Call
deriving DecidableEq, Repr

/-- A context together with the device it talks to. -/
structure State where
  ctx : D3D11DrawContext
  dev : Device
deriving DecidableEq, Repr

/-- Append one call to the trace. -/
def State.emit (s : State) (c : Call) : State :=
  { s with dev := { s.dev with trace := s.dev.trace ++ [c] } }

/-- The call `pd3d11Device->CreateBuffer(&bd, initData, &slot)`; returns `FAILED(hr)`. -/
def CreateBuffer (env : Env) (bd : D3D11_BUFFER_DESC) (pSysMem : Option (List Word32))
    (slot : Slot) (s : State) : Bool × State :=
  let hr := env.device s.dev.calls
  let out := hr.out (s.ctx.get slot) s.dev.fresh
  (hr.failed,
    { ctx := s.ctx.set slot out,
      dev := { calls := s.dev.calls + 1, fresh := s.dev.fresh + 1,
               trace := s.dev.trace ++ [Call.CreateBuffer bd pSysMem slot hr.failed out] } })

/-- The call `pd3d11Device->CreateShaderResourceView(resource, &srvd, &slot)`; returns
`FAILED(hr)`. -/
def CreateShaderResourceView (env : Env) (resource : Option Handle)
    (srvd : D3D11_SHADER_RESOURCE_VIEW_DESC) (slot : Slot) (s : State) : Bool × State :=
  let hr := env.device s.dev.calls
  let out := hr.out (s.ctx.get slot) s.dev.fresh
  (hr.failed,
    { ctx := s.ctx.set slot out,
      dev := { calls := s.dev.calls + 1, fresh := s.dev.fresh + 1,
               trace := s.dev.trace ++
                 [Call.CreateShaderResourceView resource srvd slot hr.failed out] } })

/-- The call `pd3d11DeviceContext->Map(resource, 0, D3D11_MAP_WRITE_DISCARD, 0, &mapped)`;
returns `FAILED(hr)`. -/
def Map (env : Env) (resource : Option Handle) (s : State) : Bool × State :=
  let hr := env.device s.dev.calls
  (hr.failed,
    { ctx := s.ctx,
      dev := { calls := s.dev.calls + 1, fresh := s.dev.fresh,
               trace := s.dev.trace ++ [Call.Map resource hr.failed] } })

/-! ## The operations of `d3d11DrawContext.cpp` -/

/-- The constructor (lines 36-48): every resource member is NULL. -/
def D3D11DrawContext.new : D3D11DrawContext :=
  { patchIndexBuffer := none, patchParamBuffer := none, patchParamBufferSRV := none,
    fvarDataBuffer := none, fvarDataBufferSRV := none, vertexBufferSRV := none,
    vertexValenceBuffer := none, vertexValenceBufferSRV := none,
    quadOffsetBuffer := none, quadOffsetBufferSRV := none, isAdaptive := false }

/-- The statement `if (member) member->Release();`. -/
def releaseIf (member : Option Handle) (d : Device) : Device :=
  match member with
  | none => d
  | some h => { d with trace := d.trace ++ [Call.Release h] }

/-- The destructor (lines 50-62). -/
def destroy (c : D3D11DrawContext) (d : Device) : Device :=
  let d := releaseIf c.patchIndexBuffer d
  let d := releaseIf c.patchParamBuffer d
  let d := releaseIf c.patchParamBufferSRV d
  let d := releaseIf c.fvarDataBuffer d
  let d := releaseIf c.fvarDataBufferSRV d
  let d := releaseIf c.vertexBufferSRV d
  let d := releaseIf c.vertexValenceBuffer d
  let d := releaseIf c.vertexValenceBufferSRV d
  let d := releaseIf c.quadOffsetBuffer d
  releaseIf c.quadOffsetBufferSRV d

/-- Lines 82-87 of `create`: `_isAdaptive` is set and the device is fetched. -/
def createBegin (patchTables : PatchTables) (s : State) : State :=
  let s : State := { s with ctx := { s.ctx with isAdaptive := patchTables.IsFeatureAdaptive } }
  s.emit Call.GetDevice

/-- Lines 89-112 of `create`: the patch index buffer.  The flag is `true` when the
function goes on and `false` when it executes `return false`. -/
def createPatchIndex (env : Env) (patchTables : PatchTables) (s : State) : Bool × State :=
  let ptables := patchTables.GetPatchControlVerticesTable
  let bd : D3D11_BUFFER_DESC :=
    { ByteWidth := toUINT (toSizeT (toSizeT (toInt ptables.length) * sizeofWord)),
      Usage := .D3D11_USAGE_DYNAMIC,
      BindFlags := .D3D11_BIND_INDEX_BUFFER,
      CPUAccessFlags := .D3D11_CPU_ACCESS_WRITE,
      MiscFlags := 0,
      StructureByteStride := sizeofWord }
  let r := CreateBuffer env bd none .patchIndexBuffer s
  if r.1 then (false, r.2) else
  let r := Map env r.2.ctx.patchIndexBuffer r.2
  if r.1 then (false, r.2) else
  let s := r.2.emit (Call.memcpy r.2.ctx.patchIndexBuffer ptables
              (toSizeT (ptables.length * sizeofWord)))
  (true, s.emit (Call.Unmap s.ctx.patchIndexBuffer))

/-- Lines 119-170 of `create`: the patch param buffer and its view. -/
def createPatchParam (env : Env) (patchTables : PatchTables) (s : State) : Bool × State :=
  let patchParamTables := patchTables.GetPatchParamTable
  if patchParamTables.isEmpty then (true, s) else
  let numElements : Int := toInt patchParamTables.length
  let useSingleCrease : Bool := !patchTables.GetSharpnessIndexTable.isEmpty
  let elementSize : Int := toInt sizeofPatchParam
  let elementSize : Int :=
    if useSingleCrease then toInt (toSizeT (toSizeT elementSize + sizeofWord))
    else elementSize
  let values : List Word32 :=
    if useSingleCrease then env.packSharpnessValues patchTables
    else patchParamWords patchParamTables
  let bd : D3D11_BUFFER_DESC :=
    { ByteWidth := toUINT (toInt (numElements * elementSize)),
      Usage := .D3D11_USAGE_DYNAMIC,
      BindFlags := .D3D11_BIND_SHADER_RESOURCE,
      CPUAccessFlags := .D3D11_CPU_ACCESS_WRITE,
      MiscFlags := 0,
      StructureByteStride := sizeofWord }
  let r := CreateBuffer env bd none .patchParamBuffer s
  if r.1 then (false, r.2) else
  let srvd : D3D11_SHADER_RESOURCE_VIEW_DESC :=
    { Format := if useSingleCrease then .DXGI_FORMAT_R32G32B32_UINT
                else .DXGI_FORMAT_R32G32_UINT,
      ViewDimension := .D3D11_SRV_DIMENSION_BUFFER,
      FirstElement := 0,
      NumElements := toUINT numElements }
  let r := CreateShaderResourceView env r.2.ctx.patchParamBuffer srvd .patchParamBufferSRV r.2
  if r.1 then (false, r.2) else
  let r := Map env r.2.ctx.patchParamBuffer r.2
  if r.1 then (false, r.2) else
  let s := r.2.emit (Call.memcpy r.2.ctx.patchParamBuffer values
              (toSizeT (toInt (numElements * elementSize))))
  (true, s.emit (Call.Unmap s.ctx.patchParamBuffer))

/-- The shape shared by lines 172-201 and 203-231 of `create` and by lines 251-274 of
`SetFVarDataTexture`: an immutable buffer initialised from `table` and a view on it. -/
def createTableBuffer (env : Env) (table : List Word32) (format : DXGI_FORMAT)
    (buffer srv : Slot) (s : State) : Bool × State :=
  let bd : D3D11_BUFFER_DESC :=
    { ByteWidth := toUINT (toSizeT (table.length * sizeofWord)),
      Usage := .D3D11_USAGE_DEFAULT,
      BindFlags := .D3D11_BIND_SHADER_RESOURCE,
      CPUAccessFlags := .NONE,
      MiscFlags := 0,
      StructureByteStride := sizeofWord }
  let r := CreateBuffer env bd (some table) buffer s
  if r.1 then (false, r.2) else
  let srvd : D3D11_SHADER_RESOURCE_VIEW_DESC :=
    { Format := format,
      ViewDimension := .D3D11_SRV_DIMENSION_BUFFER,
      FirstElement := 0,
      NumElements := toUINT table.length }
  let r := CreateShaderResourceView env (r.2.ctx.get buffer) srvd srv r.2
  if r.1 then (false, r.2) else (true, r.2)

/-- Lines 172-201 of `create`: the vertex valence buffer and its view. -/
def createVertexValence (env : Env) (patchTables : PatchTables) (s : State) : Bool × State :=
  let valenceTable := patchTables.GetVertexValenceTable
  if valenceTable.isEmpty then (true, s) else
  createTableBuffer env valenceTable .DXGI_FORMAT_R32_SINT
    .vertexValenceBuffer .vertexValenceBufferSRV s

/-- Lines 203-231 of `create`: the quad offsets buffer and its view. -/
def createQuadOffset (env : Env) (patchTables : PatchTables) (s : State) : Bool × State :=
  let quadOffsetTable := patchTables.GetQuadOffsetsTable
  if quadOffsetTable.isEmpty then (true, s) else
  createTableBuffer env quadOffsetTable .DXGI_FORMAT_R32_SINT
    .quadOffsetBuffer .quadOffsetBufferSRV s

/-- The method `D3D11DrawContext::create` (lines 77-234). -/
def create (env : Env) (patchTables : PatchTables) (numVertexElements : Int) (s : State) :
    Bool × State :=
  let s := createBegin patchTables s
  let r := createPatchIndex env patchTables s
  if !r.1 then (false, r.2) else
  let s := r.2.emit (Call.ConvertPatchArrays patchTables.GetMaxValence numVertexElements)
  let r := createPatchParam env patchTables s
  if !r.1 then (false, r.2) else
  let r := createVertexValence env patchTables r.2
  if !r.1 then (false, r.2) else
  let r := createQuadOffset env patchTables r.2
  if !r.1 then (false, r.2) else
  (true, r.2)

/-- The static method `D3D11DrawContext::Create` (lines 64-75): the returned pointer
(`none` is NULL) and the device afterwards. -/
def Create (env : Env) (patchTables : PatchTables) (numVertexElements : Int) (d : Device) :
    Option D3D11DrawContext × Device :=
  let result := D3D11DrawContext.new
  let r := create env patchTables numVertexElements { ctx := result, dev := d }
  if r.1 then (some r.2.ctx, r.2.dev)
  else (none, destroy r.2.ctx r.2.dev)

/-- The method `D3D11DrawContext::SetFVarDataTexture` (lines 236-277). -/
def SetFVarDataTexture (env : Env) (patchTables : PatchTables) (fvarWidth : Int)
    (fvarData : List Word32) (s : State) : Bool × State :=
  if fvarData.isEmpty then (true, s) else
  let fvarDataTable := env.packFVarData patchTables fvarWidth fvarData
  let s := s.emit Call.GetDevice
  createTableBuffer env fvarDataTable .DXGI_FORMAT_R32_FLOAT
    .fvarDataBuffer .fvarDataBufferSRV s

/-- The method `D3D11DrawContext::updateVertexTexture` (lines 279-299). -/
def updateVertexTexture (env : Env) (vbo : Option Handle) (numVertices : Int)
    (numVertexElements : Int) (s : State) : State :=
  let s := s.emit Call.GetDevice
  let srvd : D3D11_SHADER_RESOURCE_VIEW_DESC :=
    { Format := .DXGI_FORMAT_R32_FLOAT,
      ViewDimension := .D3D11_SRV_DIMENSION_BUFFER,
      FirstElement := 0,
      NumElements := toUINT (toInt (toInt numVertices * toInt numVertexElements)) }
  let r := CreateShaderResourceView env vbo srvd .vertexBufferSRV s
  if r.1 then r.2 else r.2


/-! ## Reading a trace -/

/-- Whether the call is a fallible device call that failed. -/
def Call.failed : Call → Bool
  | .CreateBuffer _ _ _ f _ => f
  | .CreateShaderResourceView _ _ _ f _ => f
  | .Map _ f => f
  | _ => false

/-- The member a creation call writes through its out-pointer. -/
def Call.target : Call → Option Slot
  | .CreateBuffer _ _ slot _ _ => some slot
  | .CreateShaderResourceView _ _ slot _ _ => some slot
  | _ => none

/-- The object a successful creation call brought into existence. -/
def Call.creates : Call → Option Handle
  | .CreateBuffer _ _ _ f out => if f then none else out
  | .CreateShaderResourceView _ _ _ f out => if f then none else out
  | _ => none

/-- The object a `Release` call is made on. -/
def Call.releases : Call → Option Handle
  | .Release h => some h
  | _ => none

/-- The objects created by the calls of a trace, in order of creation. -/
def created (tr : List Call) : List Handle := tr.filterMap Call.creates

/-- The objects released by the calls of a trace, in order of release. -/
def released (tr : List Call) : List Handle := tr.filterMap Call.releases

/-- The calls issued between two device states. -/
def newCalls (d d' : Device) : List Call := d'.trace.drop d.trace.length

/-- The ten members in the order of the destructor. -/
def allSlots : List Slot :=
  [.patchIndexBuffer, .patchParamBuffer, .patchParamBufferSRV, .fvarDataBuffer,
   .fvarDataBufferSRV, .vertexBufferSRV, .vertexValenceBuffer, .vertexValenceBufferSRV,
   .quadOffsetBuffer, .quadOffsetBufferSRV]

/-- The non-NULL members of a context, in the order of the destructor. -/
def held (c : D3D11DrawContext) : List Handle := allSlots.filterMap c.get

/-- The members written by lines 119-170. -/
def paramSlots (patchTables : PatchTables) : List Slot :=
  if patchTables.GetPatchParamTable.isEmpty then []
  else [Slot.patchParamBuffer, Slot.patchParamBufferSRV]

/-- The members written by lines 172-201. -/
def valenceSlots (patchTables : PatchTables) : List Slot :=
  if patchTables.GetVertexValenceTable.isEmpty then []
  else [Slot.vertexValenceBuffer, Slot.vertexValenceBufferSRV]

/-- The members written by lines 203-231. -/
def quadSlots (patchTables : PatchTables) : List Slot :=
  if patchTables.GetQuadOffsetsTable.isEmpty then []
  else [Slot.quadOffsetBuffer, Slot.quadOffsetBufferSRV]

/-- The members `create` writes for a given patch table, in program order. -/
def createSlots (patchTables : PatchTables) : List Slot :=
  [Slot.patchIndexBuffer] ++
    (paramSlots patchTables ++ (valenceSlots patchTables ++ quadSlots patchTables))

/-- Summary of a block of code run from state `s` with outcome `r` (flag `true`: the
block ran to its end; `false`: it executed `return false`), having issued the calls `new`
and writing only members listed in `ts`. -/
structure Seg (ts : List Slot) (s : State) (r : Bool × State) (new : List Call) : Prop where
  trace : r.2.dev.trace = s.dev.trace ++ new
  flag : r.1 = true ↔ ∀ c ∈ new, c.failed = false
  stop : ∀ c ∈ new.dropLast, c.failed = false
  untouched : ∀ slot, (∀ c ∈ new, c.target ≠ some slot) → r.2.ctx.get slot = s.ctx.get slot
  target : ∀ c ∈ new, ∀ slot, c.target = some slot → slot ∈ ts
  norelease : released new = []
  fresh_le : s.dev.fresh ≤ r.2.dev.fresh
  range : ∀ h : Nat, h ∈ created new → s.dev.fresh ≤ h ∧ h < r.2.dev.fresh
  nodup : (created new).Nodup
  held : (∀ slot ∈ ts, s.ctx.get slot = none) → ts.filterMap r.2.ctx.get = created new

/-- The calls of lines 89-112 when they succeed, `h` being the identity of the new
buffer. -/
def indexCalls (patchTables : PatchTables) (h : Nat) : List Call :=
  [Call.CreateBuffer
     { ByteWidth := (4 * patchTables.GetPatchControlVerticesTable.length) % 4294967296,
       Usage := .D3D11_USAGE_DYNAMIC,
       BindFlags := .D3D11_BIND_INDEX_BUFFER,
       CPUAccessFlags := .D3D11_CPU_ACCESS_WRITE,
       MiscFlags := 0,
       StructureByteStride := 4 }
     none .patchIndexBuffer false (some h),
   Call.Map (some h) false,
   Call.memcpy (some h) patchTables.GetPatchControlVerticesTable
     (toSizeT (patchTables.GetPatchControlVerticesTable.length * sizeofWord)),
   Call.Unmap (some h)]

/-- The calls of lines 119-170 when the table is non-empty and they succeed. -/
def paramCalls (env : Env) (patchTables : PatchTables) (h : Nat) : List Call :=
  [Call.CreateBuffer
     { ByteWidth := (patchTables.GetPatchParamTable.length *
         (if patchTables.GetSharpnessIndexTable.isEmpty then 8 else 12)) % 4294967296,
       Usage := .D3D11_USAGE_DYNAMIC,
       BindFlags := .D3D11_BIND_SHADER_RESOURCE,
       CPUAccessFlags := .D3D11_CPU_ACCESS_WRITE,
       MiscFlags := 0,
       StructureByteStride := 4 }
     none .patchParamBuffer false (some h),
   Call.CreateShaderResourceView (some h)
     { Format := if patchTables.GetSharpnessIndexTable.isEmpty
         then .DXGI_FORMAT_R32G32_UINT else .DXGI_FORMAT_R32G32B32_UINT,
       ViewDimension := .D3D11_SRV_DIMENSION_BUFFER,
       FirstElement := 0,
       NumElements := patchTables.GetPatchParamTable.length % 4294967296 }
     .patchParamBufferSRV false (some (h + 1)),
   Call.Map (some h) false,
   Call.memcpy (some h)
     (if patchTables.GetSharpnessIndexTable.isEmpty
       then patchParamWords patchTables.GetPatchParamTable
       else env.packSharpnessValues patchTables)
     (toSizeT (toInt (toInt patchTables.GetPatchParamTable.length *
       ((if patchTables.GetSharpnessIndexTable.isEmpty then 8 else 12 : Nat) : Int)))),
   Call.Unmap (some h)]

/-- The calls of the table-upload shape when they succeed. -/
def tableCalls (table : List Word32) (format : DXGI_FORMAT) (buffer srv : Slot) (h : Nat) :
    List Call :=
  [Call.CreateBuffer
     { ByteWidth := (4 * table.length) % 4294967296,
       Usage := .D3D11_USAGE_DEFAULT,
       BindFlags := .D3D11_BIND_SHADER_RESOURCE,
       CPUAccessFlags := .NONE,
       MiscFlags := 0,
       StructureByteStride := 4 }
     (some table) buffer false (some h),
   Call.CreateShaderResourceView (some h)
     { Format := format,
       ViewDimension := .D3D11_SRV_DIMENSION_BUFFER,
       FirstElement := 0,
       NumElements := table.length % 4294967296 }
     srv false (some (h + 1))]

/-- The calls of `create` on a device where every call succeeds, `h` being the identity
of the first object created. -/
def createCalls (env : Env) (patchTables : PatchTables) (numVertexElements : Int) (h : Nat) :
    List Call :=
  let hv := if patchTables.GetPatchParamTable.isEmpty then h + 1 else h + 3
  let hq := if patchTables.GetVertexValenceTable.isEmpty then hv else hv + 2
  [Call.GetDevice] ++ indexCalls patchTables h
    ++ [Call.ConvertPatchArrays patchTables.GetMaxValence numVertexElements]
    ++ (if patchTables.GetPatchParamTable.isEmpty then []
        else paramCalls env patchTables (h + 1))
    ++ (if patchTables.GetVertexValenceTable.isEmpty then []
        else tableCalls patchTables.GetVertexValenceTable .DXGI_FORMAT_R32_SINT
          .vertexValenceBuffer .vertexValenceBufferSRV hv)
    ++ (if patchTables.GetQuadOffsetsTable.isEmpty then []
        else tableCalls patchTables.GetQuadOffsetsTable .DXGI_FORMAT_R32_SINT
          .quadOffsetBuffer .quadOffsetBufferSRV hq)

/-- The members after `create` on a device where every call succeeds. -/
def createMembers (patchTables : PatchTables) (h : Nat) : D3D11DrawContext :=
  let hv := if patchTables.GetPatchParamTable.isEmpty then h + 1 else h + 3
  let hq := if patchTables.GetVertexValenceTable.isEmpty then hv else hv + 2
  { patchIndexBuffer := some h,
    patchParamBuffer := if patchTables.GetPatchParamTable.isEmpty then none else some (h + 1),
    patchParamBufferSRV :=
      if patchTables.GetPatchParamTable.isEmpty then none else some (h + 2),
    fvarDataBuffer := none,
    fvarDataBufferSRV := none,
    vertexBufferSRV := none,
    vertexValenceBuffer :=
      if patchTables.GetVertexValenceTable.isEmpty then none else some hv,
    vertexValenceBufferSRV :=
      if patchTables.GetVertexValenceTable.isEmpty then none else some (hv + 1),
    quadOffsetBuffer := if patchTables.GetQuadOffsetsTable.isEmpty then none else some hq,
    quadOffsetBufferSRV :=
      if patchTables.GetQuadOffsetsTable.isEmpty then none else some (hq + 1),
    isAdaptive := patchTables.IsFeatureAdaptive }

/-- The two tables uploaded by lines 172-231. -/
inductive GregoryTable
  | vertexValence
  | quadOffsets
deriving DecidableEq, Repr

/-- The table read from the patch tables. -/
def GregoryTable.table : GregoryTable → PatchTables → List Word32
  | .vertexValence, pt => pt.GetVertexValenceTable
  | .quadOffsets, pt => pt.GetQuadOffsetsTable

/-- The buffer member written for the table. -/
def GregoryTable.buffer : GregoryTable → Slot
  | .vertexValence => .vertexValenceBuffer
  | .quadOffsets => .quadOffsetBuffer

/-- The view member written for the table. -/
def GregoryTable.srv : GregoryTable → Slot
  | .vertexValence => .vertexValenceBufferSRV
  | .quadOffsets => .quadOffsetBufferSRV

/-! ## The life of a context -/

/-- A call a client makes on a live context. -/
inductive Op
  | SetFVarDataTexture (patchTables : PatchTables) (fvarWidth : Int)
      (fvarData : List Word32)
  | updateVertexTexture (vbo : Option Handle) (numVertices : Int) (numVertexElements : Int)
deriving DecidableEq, Repr

/-- Run one client call. -/
def Op.run (env : Env) : Op → State → State
  | .SetFVarDataTexture patchTables fvarWidth fvarData, s =>
      (OpenSubdiv.Osd.SetFVarDataTexture env patchTables fvarWidth fvarData s).2
  | .updateVertexTexture vbo numVertices numVertexElements, s =>
      OpenSubdiv.Osd.updateVertexTexture env vbo numVertices numVertexElements s

/-- Run a sequence of client calls. -/
def runOps (env : Env) : List Op → State → State
  | [], s => s
  | op :: ops, s => runOps env ops (op.run env s)

/-- The life of a context: `Create`, a sequence of client calls when a context was
returned, then `delete`. -/
def lifecycle (env : Env) (patchTables : PatchTables) (numVertexElements : Int)
    (ops : List Op) (d : Device) : Device :=
  match Create env patchTables numVertexElements d with
  | (none, d') => d'
  | (some ctx, d') =>
      let s := runOps env ops { ctx := ctx, dev := d' }
      destroy s.ctx s.dev

/-! ## Concrete inputs -/

/-- A device on which every call succeeds, with helpers that return their input. -/
def okEnv : Env :=
  { device := fun _ => S_OK,
    packSharpnessValues := fun pt => patchParamWords pt.GetPatchParamTable,
    packFVarData := fun _ _ fvarData => fvarData }

/-- A patch table with nothing but `n` control-vertex indices, all zero. -/
def indexOnlyTables (n : Nat) : PatchTables :=
  { IsFeatureAdaptive := false,
    GetPatchControlVerticesTable := List.replicate n 0,
    GetPatchParamTable := [],
    GetSharpnessIndexTable := [],
    GetVertexValenceTable := [],
    GetQuadOffsetsTable := [],
    GetMaxValence := 0 }

/-- A device that has answered no call yet. -/
def Device.init : Device := { calls := 0, fresh := 0, trace := [] }

/-- Tables with four control-vertex indices and `n` patch params, all zero, without
sharpness indices. -/
def paramTables (n : Nat) : PatchTables :=
  { IsFeatureAdaptive := true,
    GetPatchControlVerticesTable := [0, 1, 2, 3],
    GetPatchParamTable := List.replicate n { faceIndex := 0, bitField := 0 },
    GetSharpnessIndexTable := [],
    GetVertexValenceTable := [],
    GetQuadOffsetsTable := [],
    GetMaxValence := 4 }

/-- Tables with four control-vertex indices, `k` vertex valence entries and `q` quad
offsets entries, all zero. -/
def gregoryTables (k q : Nat) : PatchTables :=
  { IsFeatureAdaptive := true,
    GetPatchControlVerticesTable := [0, 1, 2, 3],
    GetPatchParamTable := [],
    GetSharpnessIndexTable := [],
    GetVertexValenceTable := List.replicate k 0,
    GetQuadOffsetsTable := List.replicate q 0,
    GetMaxValence := 4 }

/-- A packing helper that interleaves a zero sharpness word after each patch param. -/
def packZeroSharpness : List PatchParam → List Word32
  | [] => []
  | p :: ps => p.faceIndex :: p.bitField :: 0 :: packZeroSharpness ps

/-- A device on which every call succeeds, with a sharpness packing of three words per
patch param. -/
def creaseEnv : Env :=
  { device := fun _ => S_OK,
    packSharpnessValues := fun pt => packZeroSharpness pt.GetPatchParamTable,
    packFVarData := fun _ _ fvarData => fvarData }

/-- Tables with two patch params and one sharpness index. -/
def creaseTables : PatchTables :=
  { IsFeatureAdaptive := true,
    GetPatchControlVerticesTable := [0, 1, 2, 3],
    GetPatchParamTable := [{ faceIndex := 7, bitField := 8 }, { faceIndex := 9, bitField := 10 }],
    GetSharpnessIndexTable := [0],
    GetVertexValenceTable := [],
    GetQuadOffsetsTable := [],
    GetMaxValence := 4 }

/-- Face-varying data of 2^30 floats, all zero. -/
def bigFVarData : List Word32 := List.replicate 1073741824 0

/-- A device whose `k`-th call fails, storing NULL through the out-pointer, and whose
other calls succeed. -/
def failAt (k : Nat) : Env :=
  { device := fun i => if i = k then { failed := true, clearsOut := true } else S_OK,
    packSharpnessValues := fun pt => packZeroSharpness pt.GetPatchParamTable,
    packFVarData := fun _ _ fvarData => fvarData }

/-- Tables in which every table is non-empty. -/
def fullTables : PatchTables :=
  { IsFeatureAdaptive := true,
    GetPatchControlVerticesTable := [0, 1, 2, 3],
    GetPatchParamTable := [{ faceIndex := 7, bitField := 8 }],
    GetSharpnessIndexTable := [0],
    GetVertexValenceTable := [4, 0, 1],
    GetQuadOffsetsTable := [0, 1, 2, 3],
    GetMaxValence := 4 }

/-! ## Members -/

theorem get_set_same (c : D3D11DrawContext) (slot : Slot) (v : Option Handle) :
    (c.set slot v).get slot = v := by
  cases slot <;> rfl

theorem get_set_ne (c : D3D11DrawContext) (slot slot' : Slot) (v : Option Handle)
    (h : slot' ≠ slot) : (c.set slot v).get slot' = c.get slot' := by
  cases slot <;> cases slot' <;> first | rfl | exact absurd rfl h

theorem get_new (slot : Slot) : D3D11DrawContext.new.get slot = none := by
  cases slot <;> rfl

/-! ## Summaries of blocks -/

theorem Seg.frame {ts : List Slot} {s : State} {r : Bool × State} {new : List Call}
    (h : Seg ts s r new) (slot : Slot) (hs : slot ∉ ts) : r.2.ctx.get slot = s.ctx.get slot :=
  h.untouched slot (fun c hc heq => hs (h.target c hc slot heq))

/-- A block that issues only calls without effect on the members. -/
theorem seg_inert (ts : List Slot) (s s' : State) (cs : List Call)
    (hctx : ∀ slot, s'.ctx.get slot = s.ctx.get slot)
    (htr : s'.dev.trace = s.dev.trace ++ cs)
    (hfresh : s'.dev.fresh = s.dev.fresh)
    (hf : ∀ c ∈ cs, c.failed = false) (ht : ∀ c ∈ cs, c.target = none)
    (hc : ∀ c ∈ cs, c.creates = none) (hr : ∀ c ∈ cs, c.releases = none) :
    Seg ts s (true, s') cs := by
  have hcreated : created cs = [] := by
    unfold created
    rw [List.filterMap_eq_nil_iff]
    exact hc
  have hreleased : released cs = [] := by
    unfold released
    rw [List.filterMap_eq_nil_iff]
    exact hr
  refine ⟨htr, ?_, ?_, ?_, ?_, hreleased, ?_, ?_, ?_, ?_⟩
  · simpa using hf
  · intro c hc'
    exact hf c (List.mem_of_mem_dropLast hc')
  · intro slot _
    exact hctx slot
  · intro c hc' slot heq
    rw [ht c hc'] at heq
    cases heq
  · simp [hfresh]
  · simp [hcreated]
  · simp [hcreated]
  · intro hnone
    rw [hcreated, List.filterMap_eq_nil_iff]
    intro slot hslot
    simpa [hctx slot] using hnone slot hslot

/-- The summary of `CreateBuffer`. -/
theorem seg_CreateBuffer (env : Env) (bd : D3D11_BUFFER_DESC) (p : Option (List Word32))
    (slot : Slot) (s : State) :
    Seg [slot] s (!(CreateBuffer env bd p slot s).1, (CreateBuffer env bd p slot s).2)
      [Call.CreateBuffer bd p slot (env.device s.dev.calls).failed
        ((env.device s.dev.calls).out (s.ctx.get slot) s.dev.fresh)] := by
  refine ⟨by simp [CreateBuffer], ?_, ?_, ?_, ?_, ?_, ?_, ?_, ?_, ?_⟩
  · simp [CreateBuffer, Call.failed]
  · simp
  · intro slot' h
    have hne : slot' ≠ slot := by
      intro heq
      exact h _ (List.mem_singleton_self _) (by simp [Call.target, heq])
    simp [CreateBuffer, get_set_ne _ _ _ _ hne]
  · intro c hc slot' heq
    simp only [List.mem_singleton] at hc
    subst hc
    simp only [Call.target, Option.some.injEq] at heq
    simp [heq]
  · simp [released, Call.releases]
  · simp [CreateBuffer]
  · intro h hh
    simp only [created, List.filterMap_cons, List.filterMap_nil, Call.creates, HRESULT.out] at hh
    cases hf : (env.device s.dev.calls).failed <;> simp [hf] at hh
    subst hh
    simp [CreateBuffer]
  · simp only [created, List.filterMap_cons, List.filterMap_nil]
    cases Call.creates _ <;> simp
  · intro hnone
    have hn : s.ctx.get slot = none := hnone slot (List.mem_singleton_self _)
    simp only [created, List.filterMap_cons, List.filterMap_nil, Call.creates, HRESULT.out,
      CreateBuffer, get_set_same, hn]
    cases hf : (env.device s.dev.calls).failed <;> simp

/-- The summary of `CreateShaderResourceView`. -/
theorem seg_CreateShaderResourceView (env : Env) (res : Option Handle)
    (srvd : D3D11_SHADER_RESOURCE_VIEW_DESC) (slot : Slot) (s : State) :
    Seg [slot] s (!(CreateShaderResourceView env res srvd slot s).1,
        (CreateShaderResourceView env res srvd slot s).2)
      [Call.CreateShaderResourceView res srvd slot (env.device s.dev.calls).failed
        ((env.device s.dev.calls).out (s.ctx.get slot) s.dev.fresh)] := by
  refine ⟨by simp [CreateShaderResourceView], ?_, ?_, ?_, ?_, ?_, ?_, ?_, ?_, ?_⟩
  · simp [CreateShaderResourceView, Call.failed]
  · simp
  · intro slot' h
    have hne : slot' ≠ slot := by
      intro heq
      exact h _ (List.mem_singleton_self _) (by simp [Call.target, heq])
    simp [CreateShaderResourceView, get_set_ne _ _ _ _ hne]
  · intro c hc slot' heq
    simp only [List.mem_singleton] at hc
    subst hc
    simp only [Call.target, Option.some.injEq] at heq
    simp [heq]
  · simp [released, Call.releases]
  · simp [CreateShaderResourceView]
  · intro h hh
    simp only [created, List.filterMap_cons, List.filterMap_nil, Call.creates, HRESULT.out] at hh
    cases hf : (env.device s.dev.calls).failed <;> simp [hf] at hh
    subst hh
    simp [CreateShaderResourceView]
  · simp only [created, List.filterMap_cons, List.filterMap_nil]
    cases Call.creates _ <;> simp
  · intro hnone
    have hn : s.ctx.get slot = none := hnone slot (List.mem_singleton_self _)
    simp only [created, List.filterMap_cons, List.filterMap_nil, Call.creates, HRESULT.out,
      CreateShaderResourceView, get_set_same, hn]
    cases hf : (env.device s.dev.calls).failed <;> simp

/-- The summary of `Map`. -/
theorem seg_Map (env : Env) (res : Option Handle) (s : State) :
    Seg [] s (!(Map env res s).1, (Map env res s).2)
      [Call.Map res (env.device s.dev.calls).failed] := by
  refine ⟨by simp [Map], ?_, ?_, ?_, ?_, ?_, ?_, ?_, ?_, ?_⟩
  · simp [Map, Call.failed]
  · simp
  · intro slot' _
    simp [Map]
  · intro c hc slot' heq
    simp only [List.mem_singleton] at hc
    subst hc
    simp [Call.target] at heq
  · simp [released, Call.releases]
  · simp [Map]
  · simp [created, Call.creates]
  · simp [created, Call.creates]
  · intro _
    simp [created, Call.creates]

theorem created_append (a b : List Call) : created (a ++ b) = created a ++ created b := by
  simp [created]

theorem released_append (a b : List Call) : released (a ++ b) = released a ++ released b := by
  simp [released]

/-- A summary stays valid when further members, untouched by the block, are listed. -/
theorem seg_extend {ts1 : List Slot} (ts2 : List Slot) {s : State} {r : Bool × State}
    {new : List Call} (h : Seg ts1 s r new) (hd : ∀ x ∈ ts2, x ∉ ts1) :
    Seg (ts1 ++ ts2) s r new := by
  refine ⟨h.trace, h.flag, h.stop, h.untouched, ?_, h.norelease, h.fresh_le, h.range,
    h.nodup, ?_⟩
  · intro c hc slot heq
    exact List.mem_append_left _ (h.target c hc slot heq)
  · intro hnone
    rw [List.filterMap_append, h.held (fun slot hs => hnone slot (List.mem_append_left _ hs))]
    have : ts2.filterMap r.2.ctx.get = [] := by
      rw [List.filterMap_eq_nil_iff]
      intro slot hs
      rw [h.frame slot (hd slot hs)]
      exact hnone slot (List.mem_append_right _ hs)
    rw [this, List.append_nil]

/-- Sequencing of two blocks, the first of which ran to its end. -/
theorem seg_seq {ts1 ts2 : List Slot} {s : State} {r1 r2 : Bool × State}
    {new1 new2 : List Call} (h1 : Seg ts1 s r1 new1) (hok : r1.1 = true)
    (h2 : Seg ts2 r1.2 r2 new2) (hd : ∀ x ∈ ts2, x ∉ ts1) :
    Seg (ts1 ++ ts2) s r2 (new1 ++ new2) := by
  have hall1 : ∀ c ∈ new1, c.failed = false := h1.flag.mp hok
  refine ⟨?_, ?_, ?_, ?_, ?_, ?_, ?_, ?_, ?_, ?_⟩
  · rw [h2.trace, h1.trace, List.append_assoc]
  · rw [h2.flag]
    constructor
    · intro h c hc
      rcases List.mem_append.mp hc with hc | hc
      · exact hall1 c hc
      · exact h c hc
    · intro h c hc
      exact h c (List.mem_append_right _ hc)
  · intro c hc
    by_cases hnil : new2 = []
    · subst hnil
      rw [List.append_nil] at hc
      exact hall1 c (List.mem_of_mem_dropLast hc)
    · rw [List.dropLast_append_of_ne_nil _ hnil] at hc
      rcases List.mem_append.mp hc with hc | hc
      · exact hall1 c hc
      · exact h2.stop c hc
  · intro slot h
    rw [h2.untouched slot (fun c hc => h c (List.mem_append_right _ hc)),
      h1.untouched slot (fun c hc => h c (List.mem_append_left _ hc))]
  · intro c hc slot heq
    rcases List.mem_append.mp hc with hc | hc
    · exact List.mem_append_left _ (h1.target c hc slot heq)
    · exact List.mem_append_right _ (h2.target c hc slot heq)
  · rw [released_append, h1.norelease, h2.norelease]
    rfl
  · exact Nat.le_trans h1.fresh_le h2.fresh_le
  · intro h hh
    rw [created_append] at hh
    rcases List.mem_append.mp hh with hh | hh
    · have := h1.range h hh
      have := h2.fresh_le
      omega
    · have := h2.range h hh
      have := h1.fresh_le
      omega
  · rw [created_append, List.nodup_append]
    refine ⟨h1.nodup, h2.nodup, ?_⟩
    intro a ha hb
    have := h1.range a ha
    have := h2.range a hb
    omega
  · intro hnone
    have hnone2 : ∀ slot ∈ ts2, r1.2.ctx.get slot = none := by
      intro slot hs
      rw [h1.frame slot (hd slot hs)]
      exact hnone slot (List.mem_append_right _ hs)
    rw [List.filterMap_append, created_append, h2.held hnone2,
      ← h1.held (fun slot hs => hnone slot (List.mem_append_left _ hs))]
    congr 1
    apply List.filterMap_congr
    intro slot hs
    exact h2.frame slot (fun hs2 => hd slot hs2 hs)

/-- The pattern `hr = call(...); if (FAILED(hr)) return false; rest`. -/
theorem seg_bind_call (ts1 ts2 : List Slot) {s : State} {P K : Bool × State}
    {new1 : List Call} (h1 : Seg ts1 s (!P.1, P.2) new1)
    (h2 : P.1 = false → ∃ new2, Seg ts2 P.2 K new2) (hd : ∀ x ∈ ts2, x ∉ ts1) :
    ∃ new, Seg (ts1 ++ ts2) s (if P.1 = true then (false, P.2) else K) new := by
  cases hP : P.1
  · obtain ⟨new2, h2⟩ := h2 hP
    refine ⟨new1 ++ new2, ?_⟩
    simp only [Bool.false_eq_true, if_false]
    exact seg_seq h1 (by simp [hP]) h2 hd
  · refine ⟨new1, ?_⟩
    simp only [if_true]
    have := seg_extend ts2 h1 hd
    simpa [hP] using this

/-- The pattern `if the block returned false then return false; rest`. -/
theorem seg_bind_block {ts1 ts2 : List Slot} {s : State} {R K : Bool × State}
    (h1 : ∃ new1, Seg ts1 s R new1)
    (h2 : R.1 = true → ∃ new2, Seg ts2 R.2 K new2) (hd : ∀ x ∈ ts2, x ∉ ts1) :
    ∃ new, Seg (ts1 ++ ts2) s (if (!R.1) = true then (false, R.2) else K) new := by
  obtain ⟨new1, h1⟩ := h1
  cases hR : R.1
  · refine ⟨new1, ?_⟩
    simp only [Bool.not_false, if_true]
    have := seg_extend ts2 h1 hd
    have hR' : R = (false, R.2) := by rw [← hR]
    rw [hR'] at this
    exact this
  · obtain ⟨new2, h2⟩ := h2 hR
    refine ⟨new1 ++ new2, ?_⟩
    simp only [Bool.not_true, Bool.false_eq_true, if_false]
    exact seg_seq h1 hR h2 hd

/-- A block that did nothing. -/
theorem seg_nil (ts : List Slot) (s : State) : Seg ts s (true, s) [] :=
  seg_inert ts s s [] (fun _ => rfl) (by simp) rfl (by simp) (by simp) (by simp) (by simp)

/-- A block of one call without effect on the members. -/
theorem seg_emit (ts : List Slot) (s : State) (a : Call)
    (hf : a.failed = false) (ht : a.target = none) (hc : a.creates = none)
    (hr : a.releases = none) : Seg ts s (true, s.emit a) [a] :=
  seg_inert ts s _ [a] (fun _ => rfl) rfl rfl (by simpa using hf) (by simpa using ht)
    (by simpa using hc) (by simpa using hr)

/-- A block of two calls without effect on the members. -/
theorem seg_emit_two (ts : List Slot) (s : State) (a b : Call)
    (hf : a.failed = false ∧ b.failed = false) (ht : a.target = none ∧ b.target = none)
    (hc : a.creates = none ∧ b.creates = none)
    (hr : a.releases = none ∧ b.releases = none) :
    Seg ts s (true, (s.emit a).emit b) [a, b] :=
  seg_inert ts s _ [a, b] (fun _ => rfl) (by simp [State.emit]) rfl (by simpa using hf)
    (by simpa using ht) (by simpa using hc) (by simpa using hr)

/-- The summary of lines 89-112. -/
theorem seg_createPatchIndex (env : Env) (pt : PatchTables) (s : State) :
    ∃ new, Seg [Slot.patchIndexBuffer] s (createPatchIndex env pt s) new := by
  refine seg_bind_call [Slot.patchIndexBuffer] []
    (seg_CreateBuffer _ _ _ _ _) (fun _ => ?_) (by simp)
  refine seg_bind_call [] [] (seg_Map _ _ _) (fun _ => ?_) (by simp)
  exact ⟨_, seg_emit_two [] _ _ _ ⟨rfl, rfl⟩ ⟨rfl, rfl⟩ ⟨rfl, rfl⟩ ⟨rfl, rfl⟩⟩

/-- The summary of the table-upload shape. -/
theorem seg_createTableBuffer (env : Env) (table : List Word32) (format : DXGI_FORMAT)
    (buffer srv : Slot) (hne : srv ≠ buffer) (s : State) :
    ∃ new, Seg [buffer, srv] s (createTableBuffer env table format buffer srv s) new := by
  refine seg_bind_call [buffer] [srv] (seg_CreateBuffer _ _ _ _ _)
    (fun _ => ?_) (by simpa using hne)
  refine seg_bind_call [srv] [] (seg_CreateShaderResourceView _ _ _ _ _)
    (fun _ => ?_) (by simp)
  exact ⟨[], seg_nil [] _⟩

/-- The pattern `if the last block returned false then return false; return true`. -/
theorem seg_last_block {ts : List Slot} {s : State} {R : Bool × State}
    (h : ∃ new, Seg ts s R new) :
    ∃ new, Seg ts s (if (!R.1) = true then (false, R.2) else (true, R.2)) new := by
  obtain ⟨new, h⟩ := h
  refine ⟨new, ?_⟩
  cases hR : R.1
  · simp only [Bool.not_false, if_true]
    have hR' : R = (false, R.2) := by rw [← hR]
    rw [hR'] at h
    exact h
  · simp only [Bool.not_true, Bool.false_eq_true, if_false]
    have hR' : R = (true, R.2) := by rw [← hR]
    rw [hR'] at h
    exact h

/-- The summary of lines 119-170. -/
theorem seg_createPatchParam (env : Env) (pt : PatchTables) (s : State) :
    ∃ new, Seg (paramSlots pt) s (createPatchParam env pt s) new := by
  unfold paramSlots
  cases he : pt.GetPatchParamTable.isEmpty
  · simp only [Bool.false_eq_true, if_false]
    unfold createPatchParam
    simp only [he, Bool.false_eq_true, if_false]
    refine seg_bind_call [Slot.patchParamBuffer] [Slot.patchParamBufferSRV]
      (seg_CreateBuffer _ _ _ _ _) (fun _ => ?_) (by simp)
    refine seg_bind_call [Slot.patchParamBufferSRV] []
      (seg_CreateShaderResourceView _ _ _ _ _) (fun _ => ?_) (by simp)
    refine seg_bind_call [] [] (seg_Map _ _ _) (fun _ => ?_) (by simp)
    exact ⟨_, seg_emit_two [] _ _ _ ⟨rfl, rfl⟩ ⟨rfl, rfl⟩ ⟨rfl, rfl⟩ ⟨rfl, rfl⟩⟩
  · simp only [if_true]
    unfold createPatchParam
    simp only [he, if_true]
    exact ⟨[], seg_nil [] s⟩

/-- The summary of lines 172-201. -/
theorem seg_createVertexValence (env : Env) (pt : PatchTables) (s : State) :
    ∃ new, Seg (valenceSlots pt) s (createVertexValence env pt s) new := by
  unfold valenceSlots
  cases he : pt.GetVertexValenceTable.isEmpty
  · simp only [Bool.false_eq_true, if_false]
    unfold createVertexValence
    simp only [he, Bool.false_eq_true, if_false]
    exact seg_createTableBuffer env _ _ _ _ (by decide) s
  · simp only [if_true]
    unfold createVertexValence
    simp only [he, if_true]
    exact ⟨[], seg_nil [] s⟩

/-- The summary of lines 203-231. -/
theorem seg_createQuadOffset (env : Env) (pt : PatchTables) (s : State) :
    ∃ new, Seg (quadSlots pt) s (createQuadOffset env pt s) new := by
  unfold quadSlots
  cases he : pt.GetQuadOffsetsTable.isEmpty
  · simp only [Bool.false_eq_true, if_false]
    unfold createQuadOffset
    simp only [he, Bool.false_eq_true, if_false]
    exact seg_createTableBuffer env _ _ _ _ (by decide) s
  · simp only [if_true]
    unfold createQuadOffset
    simp only [he, if_true]
    exact ⟨[], seg_nil [] s⟩

theorem createSlots_disjoint (pt : PatchTables) :
    (∀ x ∈ paramSlots pt ++ (valenceSlots pt ++ quadSlots pt), x ∉ [Slot.patchIndexBuffer]) ∧
    (∀ x ∈ valenceSlots pt ++ quadSlots pt, x ∉ paramSlots pt) ∧
    (∀ x ∈ quadSlots pt, x ∉ valenceSlots pt) := by
  unfold paramSlots valenceSlots quadSlots
  cases pt.GetPatchParamTable.isEmpty <;> cases pt.GetVertexValenceTable.isEmpty <;>
    cases pt.GetQuadOffsetsTable.isEmpty <;> simp

/-- Calls without effect on the members, issued before a block. -/
theorem seg_prepend {ts : List Slot} {s s' : State} {K : Bool × State} {cs : List Call}
    (h1 : Seg [] s (true, s') cs) (h : ∃ new, Seg ts s' K new) : ∃ new, Seg ts s K new := by
  obtain ⟨new, hnew⟩ := h
  exact ⟨cs ++ new, seg_seq h1 rfl hnew (by simp)⟩

/-- The summary of lines 82-87. -/
theorem seg_createBegin (pt : PatchTables) (s : State) :
    Seg [] s (true, createBegin pt s) [Call.GetDevice] :=
  seg_inert [] s _ [Call.GetDevice] (fun slot => by cases slot <;> rfl) rfl rfl
    (by simp [Call.failed]) (by simp [Call.target]) (by simp [Call.creates])
    (by simp [Call.releases])

/-- The summary of lines 114-233 of `create`, reached when the index stage succeeded. -/
theorem seg_create_tables (env : Env) (pt : PatchTables) (nve : Int) (s : State)
    (h : (createPatchIndex env pt (createBegin pt s)).1 = true) :
    ∃ new, Seg (paramSlots pt ++ (valenceSlots pt ++ quadSlots pt))
      (createPatchIndex env pt (createBegin pt s)).2 (create env pt nve s) new := by
  obtain ⟨_, hd2, hd3⟩ := createSlots_disjoint pt
  unfold create
  simp only [h, Bool.not_true, Bool.false_eq_true, if_false]
  refine seg_prepend (seg_emit [] _ (Call.ConvertPatchArrays pt.GetMaxValence nve)
    rfl rfl rfl rfl) ?_
  refine seg_bind_block (seg_createPatchParam env pt _) (fun _ => ?_) hd2
  refine seg_bind_block (seg_createVertexValence env pt _) (fun _ => ?_) hd3
  exact seg_last_block (seg_createQuadOffset env pt _)

/-- The summary of `create`, run from any state. -/
theorem seg_create (env : Env) (pt : PatchTables) (nve : Int) (s : State) :
    ∃ new, Seg (createSlots pt) s (create env pt nve s) new := by
  obtain ⟨hd1, hd2, hd3⟩ := createSlots_disjoint pt
  unfold createSlots
  refine seg_prepend (seg_createBegin pt s) ?_
  refine seg_bind_block (seg_createPatchIndex env pt _) (fun _ => ?_) hd1
  refine seg_prepend (seg_emit [] _ (Call.ConvertPatchArrays pt.GetMaxValence nve)
    rfl rfl rfl rfl) ?_
  refine seg_bind_block (seg_createPatchParam env pt _) (fun _ => ?_) hd2
  refine seg_bind_block (seg_createVertexValence env pt _) (fun _ => ?_) hd3
  exact seg_last_block (seg_createQuadOffset env pt _)

/-! ## Arithmetic of the size computations -/

theorem toInt_emod (z : Int) : toInt z % 4294967296 = z % 4294967296 := by
  unfold toInt
  omega

theorem toInt_of_range (z : Int) (h0 : -2147483648 ≤ z) (h1 : z < 2147483648) :
    toInt z = z := by
  unfold toInt
  omega

theorem toUINT_toInt (z : Int) : toUINT (toInt z) = toUINT z := by
  unfold toUINT
  rw [toInt_emod]

theorem toUINT_toInt_mul (a b : Int) : toUINT (toInt a * b) = toUINT (a * b) := by
  unfold toUINT
  rw [Int.mul_emod, toInt_emod, ← Int.mul_emod]

theorem toUINT_mul_toInt (a b : Int) : toUINT (a * toInt b) = toUINT (a * b) := by
  unfold toUINT
  rw [Int.mul_emod, toInt_emod, ← Int.mul_emod]

theorem paramByteWidth_eq (n es : Nat) :
    toUINT (toInt n * es) = (n * es) % 4294967296 := by
  rw [toUINT_toInt_mul, ← Nat.cast_mul]
  unfold toUINT
  omega

theorem paramCopySize_eq (n es : Nat) (hes : 0 < es) (h : n * es < 2147483648) :
    toSizeT (toInt (toInt n * es)) = n * es := by
  have hn : n < 2147483648 := by nlinarith
  rw [toInt_of_range n (by omega) (by omega), ← Nat.cast_mul,
    toInt_of_range _ (by omega) (by omega)]
  unfold toSizeT
  omega

theorem numElements_eq (a b : Int) :
    toUINT (toInt (toInt a * toInt b)) = ((a * b) % 4294967296).toNat := by
  rw [toUINT_toInt, toUINT_toInt_mul, toUINT_mul_toInt]
  rfl

theorem indexByteWidth_eq (n : Nat) :
    toUINT (toSizeT (toSizeT (toInt n) * sizeofWord)) = (4 * n) % 4294967296 := by
  unfold toUINT toSizeT toInt sizeofWord
  omega

theorem tableByteWidth_eq (n : Nat) :
    toUINT (toSizeT (n * sizeofWord)) = (4 * n) % 4294967296 := by
  unfold toUINT toSizeT sizeofWord
  omega

theorem copySize_eq (n : Nat) (h : n < 4611686018427387904) :
    toSizeT (n * sizeofWord) = 4 * n := by
  unfold toSizeT sizeofWord
  omega

theorem toUINT_natCast (n : Nat) : toUINT n = n % 4294967296 := by
  unfold toUINT
  omega

theorem wordsCopied_all (src : List Word32) (nbytes : Nat)
    (h : 4 * src.length ≤ nbytes) : wordsCopied src nbytes = src := by
  unfold wordsCopied sizeofWord
  apply List.take_of_length_le
  omega

theorem isEmpty_eq_false_of_ne_nil {α : Type} (l : List α) (h : l ≠ []) :
    l.isEmpty = false := by
  cases l with
  | nil => exact absurd rfl h
  | cons _ _ => rfl

theorem patchParamWords_length (l : List PatchParam) :
    (patchParamWords l).length = 2 * l.length := by
  induction l with
  | nil => rfl
  | cons p ps ih =>
    simp only [patchParamWords, List.length_cons, ih]
    omega

/-! ## The calls when the device succeeds -/

theorem CreateBuffer_of_ok (env : Env) (bd : D3D11_BUFFER_DESC) (p : Option (List Word32))
    (slot : Slot) (s : State) (h : (env.device s.dev.calls).failed = false) :
    CreateBuffer env bd p slot s =
      (false,
        { ctx := s.ctx.set slot (some s.dev.fresh),
          dev := { calls := s.dev.calls + 1, fresh := s.dev.fresh + 1,
                   trace := s.dev.trace ++
                     [Call.CreateBuffer bd p slot false (some s.dev.fresh)] } }) := by
  simp [CreateBuffer, HRESULT.out, h]

theorem CreateShaderResourceView_of_ok (env : Env) (res : Option Handle)
    (srvd : D3D11_SHADER_RESOURCE_VIEW_DESC) (slot : Slot) (s : State)
    (h : (env.device s.dev.calls).failed = false) :
    CreateShaderResourceView env res srvd slot s =
      (false,
        { ctx := s.ctx.set slot (some s.dev.fresh),
          dev := { calls := s.dev.calls + 1, fresh := s.dev.fresh + 1,
                   trace := s.dev.trace ++
                     [Call.CreateShaderResourceView res srvd slot false
                       (some s.dev.fresh)] } }) := by
  simp [CreateShaderResourceView, HRESULT.out, h]

theorem Map_of_ok (env : Env) (res : Option Handle) (s : State)
    (h : (env.device s.dev.calls).failed = false) :
    Map env res s =
      (false,
        { ctx := s.ctx,
          dev := { calls := s.dev.calls + 1, fresh := s.dev.fresh,
                   trace := s.dev.trace ++ [Call.Map res false] } }) := by
  simp [Map, h]

/-- Lines 89-112 when `CreateBuffer` and `Map` succeed. -/
theorem createPatchIndex_of_ok (env : Env) (pt : PatchTables) (s : State)
    (h0 : (env.device s.dev.calls).failed = false)
    (h1 : (env.device (s.dev.calls + 1)).failed = false) :
    createPatchIndex env pt s =
      (true,
        { ctx := s.ctx.set .patchIndexBuffer (some s.dev.fresh),
          dev := { calls := s.dev.calls + 2, fresh := s.dev.fresh + 1,
                   trace := s.dev.trace ++
                     [Call.CreateBuffer
                        { ByteWidth := (4 * pt.GetPatchControlVerticesTable.length) % 4294967296,
                          Usage := .D3D11_USAGE_DYNAMIC,
                          BindFlags := .D3D11_BIND_INDEX_BUFFER,
                          CPUAccessFlags := .D3D11_CPU_ACCESS_WRITE,
                          MiscFlags := 0,
                          StructureByteStride := 4 }
                        none .patchIndexBuffer false (some s.dev.fresh),
                      Call.Map (some s.dev.fresh) false,
                      Call.memcpy (some s.dev.fresh) pt.GetPatchControlVerticesTable
                        (toSizeT (pt.GetPatchControlVerticesTable.length * sizeofWord)),
                      Call.Unmap (some s.dev.fresh)] } }) := by
  unfold createPatchIndex
  simp only [CreateBuffer_of_ok env _ _ _ s h0, indexByteWidth_eq]
  rw [Map_of_ok env _ _ h1]
  simp [State.emit, D3D11DrawContext.set, sizeofWord]


/-- The whole of `create` when only the index table is non-empty and its two calls
succeed. -/
theorem create_index_only (env : Env) (pt : PatchTables) (nve : Int) (d : Device)
    (h0 : (env.device d.calls).failed = false)
    (h1 : (env.device (d.calls + 1)).failed = false)
    (hpp : pt.GetPatchParamTable = []) (hvv : pt.GetVertexValenceTable = [])
    (hqo : pt.GetQuadOffsetsTable = []) :
    (create env pt nve ⟨D3D11DrawContext.new, d⟩).2.dev.trace =
      d.trace ++
        [Call.GetDevice,
         Call.CreateBuffer
           { ByteWidth := (4 * pt.GetPatchControlVerticesTable.length) % 4294967296,
             Usage := .D3D11_USAGE_DYNAMIC,
             BindFlags := .D3D11_BIND_INDEX_BUFFER,
             CPUAccessFlags := .D3D11_CPU_ACCESS_WRITE,
             MiscFlags := 0,
             StructureByteStride := 4 }
           none .patchIndexBuffer false (some d.fresh),
         Call.Map (some d.fresh) false,
         Call.memcpy (some d.fresh) pt.GetPatchControlVerticesTable
           (toSizeT (pt.GetPatchControlVerticesTable.length * sizeofWord)),
         Call.Unmap (some d.fresh),
         Call.ConvertPatchArrays pt.GetMaxValence nve] := by
  have hidx := createPatchIndex_of_ok env pt (createBegin pt ⟨D3D11DrawContext.new, d⟩) h0 h1
  unfold create
  simp only [hidx]
  simp [createBegin, State.emit, createPatchParam, createVertexValence, createQuadOffset,
    hpp, hvv, hqo]

/-- The table-upload shape when both of its calls succeed. -/
theorem createTableBuffer_of_ok (env : Env) (table : List Word32) (format : DXGI_FORMAT)
    (buffer srv : Slot) (s : State)
    (h0 : (env.device s.dev.calls).failed = false)
    (h1 : (env.device (s.dev.calls + 1)).failed = false) :
    createTableBuffer env table format buffer srv s =
      (true,
        { ctx := (s.ctx.set buffer (some s.dev.fresh)).set srv (some (s.dev.fresh + 1)),
          dev := { calls := s.dev.calls + 2, fresh := s.dev.fresh + 2,
                   trace := s.dev.trace ++
                     [Call.CreateBuffer
                        { ByteWidth := (4 * table.length) % 4294967296,
                          Usage := .D3D11_USAGE_DEFAULT,
                          BindFlags := .D3D11_BIND_SHADER_RESOURCE,
                          CPUAccessFlags := .NONE,
                          MiscFlags := 0,
                          StructureByteStride := 4 }
                        (some table) buffer false (some s.dev.fresh),
                      Call.CreateShaderResourceView (some s.dev.fresh)
                        { Format := format,
                          ViewDimension := .D3D11_SRV_DIMENSION_BUFFER,
                          FirstElement := 0,
                          NumElements := table.length % 4294967296 }
                        srv false (some (s.dev.fresh + 1))] } }) := by
  unfold createTableBuffer
  simp only [CreateBuffer_of_ok env _ _ _ s h0, tableByteWidth_eq]
  rw [CreateShaderResourceView_of_ok env _ _ _ _ h1]
  simp [get_set_same, sizeofWord, toUINT_natCast]

theorem elementSize_single :
    toInt (toSizeT (toSizeT (toInt sizeofPatchParam) + sizeofWord)) = 12 := by
  decide

theorem elementSize_plain : toInt sizeofPatchParam = 8 := by
  decide

/-- Lines 119-170 when the table is non-empty and the three calls succeed. -/
theorem createPatchParam_of_ok (env : Env) (pt : PatchTables) (s : State)
    (hne : pt.GetPatchParamTable.isEmpty = false)
    (h0 : (env.device s.dev.calls).failed = false)
    (h1 : (env.device (s.dev.calls + 1)).failed = false)
    (h2 : (env.device (s.dev.calls + 2)).failed = false) :
    createPatchParam env pt s =
      (true,
        { ctx := (s.ctx.set .patchParamBuffer (some s.dev.fresh)).set .patchParamBufferSRV
                   (some (s.dev.fresh + 1)),
          dev := { calls := s.dev.calls + 3, fresh := s.dev.fresh + 2,
                   trace := s.dev.trace ++
                     [Call.CreateBuffer
                        { ByteWidth := (pt.GetPatchParamTable.length *
                            (if pt.GetSharpnessIndexTable.isEmpty then 8 else 12)) % 4294967296,
                          Usage := .D3D11_USAGE_DYNAMIC,
                          BindFlags := .D3D11_BIND_SHADER_RESOURCE,
                          CPUAccessFlags := .D3D11_CPU_ACCESS_WRITE,
                          MiscFlags := 0,
                          StructureByteStride := 4 }
                        none .patchParamBuffer false (some s.dev.fresh),
                      Call.CreateShaderResourceView (some s.dev.fresh)
                        { Format := if pt.GetSharpnessIndexTable.isEmpty
                            then .DXGI_FORMAT_R32G32_UINT else .DXGI_FORMAT_R32G32B32_UINT,
                          ViewDimension := .D3D11_SRV_DIMENSION_BUFFER,
                          FirstElement := 0,
                          NumElements := pt.GetPatchParamTable.length % 4294967296 }
                        .patchParamBufferSRV false (some (s.dev.fresh + 1)),
                      Call.Map (some s.dev.fresh) false,
                      Call.memcpy (some s.dev.fresh)
                        (if pt.GetSharpnessIndexTable.isEmpty
                          then patchParamWords pt.GetPatchParamTable
                          else env.packSharpnessValues pt)
                        (toSizeT (toInt (toInt pt.GetPatchParamTable.length *
                          ((if pt.GetSharpnessIndexTable.isEmpty then 8 else 12 : Nat) : Int)))),
                      Call.Unmap (some s.dev.fresh)] } }) := by
  unfold createPatchParam
  simp only [hne, Bool.false_eq_true, if_false, CreateBuffer_of_ok env _ _ _ s h0]
  rw [CreateShaderResourceView_of_ok env _ _ _ _ h1]
  rw [Map_of_ok env _ _ h2]
  cases hs : pt.GetSharpnessIndexTable.isEmpty
  · have hbw := paramByteWidth_eq pt.GetPatchParamTable.length 12
    simp only [Nat.cast_ofNat] at hbw
    simp only [elementSize_single]
    simp [State.emit, D3D11DrawContext.set, hbw, toUINT_toInt, toUINT_natCast, sizeofWord]
  · have hbw := paramByteWidth_eq pt.GetPatchParamTable.length 8
    simp only [Nat.cast_ofNat] at hbw
    simp only [elementSize_plain]
    simp [State.emit, D3D11DrawContext.set, hbw, toUINT_toInt, toUINT_natCast, sizeofWord]

theorem createPatchParam_of_empty (env : Env) (pt : PatchTables) (s : State)
    (h : pt.GetPatchParamTable.isEmpty = true) : createPatchParam env pt s = (true, s) := by
  unfold createPatchParam
  simp [h]

theorem createVertexValence_of_empty (env : Env) (pt : PatchTables) (s : State)
    (h : pt.GetVertexValenceTable.isEmpty = true) :
    createVertexValence env pt s = (true, s) := by
  unfold createVertexValence
  simp [h]

theorem createQuadOffset_of_empty (env : Env) (pt : PatchTables) (s : State)
    (h : pt.GetQuadOffsetsTable.isEmpty = true) : createQuadOffset env pt s = (true, s) := by
  unfold createQuadOffset
  simp [h]

theorem createPatchIndex_of_allok (env : Env) (pt : PatchTables) (s : State)
    (hok : ∀ k, (env.device k).failed = false) :
    createPatchIndex env pt s =
      (true,
        { ctx := s.ctx.set .patchIndexBuffer (some s.dev.fresh),
          dev := { calls := s.dev.calls + 2, fresh := s.dev.fresh + 1,
                   trace := s.dev.trace ++ indexCalls pt s.dev.fresh } }) :=
  createPatchIndex_of_ok env pt s (hok _) (hok _)

theorem createPatchParam_of_allok (env : Env) (pt : PatchTables) (s : State)
    (hok : ∀ k, (env.device k).failed = false)
    (hne : pt.GetPatchParamTable.isEmpty = false) :
    createPatchParam env pt s =
      (true,
        { ctx := (s.ctx.set .patchParamBuffer (some s.dev.fresh)).set .patchParamBufferSRV
                   (some (s.dev.fresh + 1)),
          dev := { calls := s.dev.calls + 3, fresh := s.dev.fresh + 2,
                   trace := s.dev.trace ++ paramCalls env pt s.dev.fresh } }) :=
  createPatchParam_of_ok env pt s hne (hok _) (hok _) (hok _)

theorem createVertexValence_of_allok (env : Env) (pt : PatchTables) (s : State)
    (hok : ∀ k, (env.device k).failed = false)
    (hne : pt.GetVertexValenceTable.isEmpty = false) :
    createVertexValence env pt s =
      (true,
        { ctx := (s.ctx.set .vertexValenceBuffer (some s.dev.fresh)).set
                   .vertexValenceBufferSRV (some (s.dev.fresh + 1)),
          dev := { calls := s.dev.calls + 2, fresh := s.dev.fresh + 2,
                   trace := s.dev.trace ++
                     tableCalls pt.GetVertexValenceTable .DXGI_FORMAT_R32_SINT
                       .vertexValenceBuffer .vertexValenceBufferSRV s.dev.fresh } }) := by
  unfold createVertexValence
  simp only [hne, Bool.false_eq_true, if_false]
  exact createTableBuffer_of_ok env _ _ _ _ s (hok _) (hok _)

theorem createQuadOffset_of_allok (env : Env) (pt : PatchTables) (s : State)
    (hok : ∀ k, (env.device k).failed = false)
    (hne : pt.GetQuadOffsetsTable.isEmpty = false) :
    createQuadOffset env pt s =
      (true,
        { ctx := (s.ctx.set .quadOffsetBuffer (some s.dev.fresh)).set
                   .quadOffsetBufferSRV (some (s.dev.fresh + 1)),
          dev := { calls := s.dev.calls + 2, fresh := s.dev.fresh + 2,
                   trace := s.dev.trace ++
                     tableCalls pt.GetQuadOffsetsTable .DXGI_FORMAT_R32_SINT
                       .quadOffsetBuffer .quadOffsetBufferSRV s.dev.fresh } }) := by
  unfold createQuadOffset
  simp only [hne, Bool.false_eq_true, if_false]
  exact createTableBuffer_of_ok env _ _ _ _ s (hok _) (hok _)

theorem createPatchParam_allok (env : Env) (pt : PatchTables) (s : State)
    (hok : ∀ k, (env.device k).failed = false) :
    createPatchParam env pt s =
      (true,
        if pt.GetPatchParamTable.isEmpty then s else
        { ctx := (s.ctx.set .patchParamBuffer (some s.dev.fresh)).set .patchParamBufferSRV
                   (some (s.dev.fresh + 1)),
          dev := { calls := s.dev.calls + 3, fresh := s.dev.fresh + 2,
                   trace := s.dev.trace ++ paramCalls env pt s.dev.fresh } }) := by
  cases h : pt.GetPatchParamTable.isEmpty
  · simpa using createPatchParam_of_allok env pt s hok h
  · simpa using createPatchParam_of_empty env pt s h

theorem createVertexValence_allok (env : Env) (pt : PatchTables) (s : State)
    (hok : ∀ k, (env.device k).failed = false) :
    createVertexValence env pt s =
      (true,
        if pt.GetVertexValenceTable.isEmpty then s else
        { ctx := (s.ctx.set .vertexValenceBuffer (some s.dev.fresh)).set
                   .vertexValenceBufferSRV (some (s.dev.fresh + 1)),
          dev := { calls := s.dev.calls + 2, fresh := s.dev.fresh + 2,
                   trace := s.dev.trace ++
                     tableCalls pt.GetVertexValenceTable .DXGI_FORMAT_R32_SINT
                       .vertexValenceBuffer .vertexValenceBufferSRV s.dev.fresh } }) := by
  cases h : pt.GetVertexValenceTable.isEmpty
  · simpa using createVertexValence_of_allok env pt s hok h
  · simpa using createVertexValence_of_empty env pt s h

theorem createQuadOffset_allok (env : Env) (pt : PatchTables) (s : State)
    (hok : ∀ k, (env.device k).failed = false) :
    createQuadOffset env pt s =
      (true,
        if pt.GetQuadOffsetsTable.isEmpty then s else
        { ctx := (s.ctx.set .quadOffsetBuffer (some s.dev.fresh)).set
                   .quadOffsetBufferSRV (some (s.dev.fresh + 1)),
          dev := { calls := s.dev.calls + 2, fresh := s.dev.fresh + 2,
                   trace := s.dev.trace ++
                     tableCalls pt.GetQuadOffsetsTable .DXGI_FORMAT_R32_SINT
                       .quadOffsetBuffer .quadOffsetBufferSRV s.dev.fresh } }) := by
  cases h : pt.GetQuadOffsetsTable.isEmpty
  · simpa using createQuadOffset_of_allok env pt s hok h
  · simpa using createQuadOffset_of_empty env pt s h

/-- The whole of `create` on a device where every call succeeds. -/
theorem create_of_allok (env : Env) (pt : PatchTables) (nve : Int) (d : Device)
    (hok : ∀ k, (env.device k).failed = false) :
    (create env pt nve ⟨D3D11DrawContext.new, d⟩).1 = true ∧
    (create env pt nve ⟨D3D11DrawContext.new, d⟩).2.dev.trace =
      d.trace ++ createCalls env pt nve d.fresh ∧
    (create env pt nve ⟨D3D11DrawContext.new, d⟩).2.ctx = createMembers pt d.fresh := by
  unfold create
  simp only [createPatchIndex_of_allok env pt _ hok, createPatchParam_allok env pt _ hok,
    createVertexValence_allok env pt _ hok, createQuadOffset_allok env pt _ hok]
  cases hpp : pt.GetPatchParamTable.isEmpty <;>
  cases hvv : pt.GetVertexValenceTable.isEmpty <;>
  cases hqo : pt.GetQuadOffsetsTable.isEmpty <;>
  simp [createBegin, State.emit, createCalls, createMembers, D3D11DrawContext.set,
    D3D11DrawContext.new, hpp, hvv, hqo]

/-! ## The destructor -/

theorem releaseIf_eq (m : Option Handle) (d : Device) :
    releaseIf m d = { d with trace := d.trace ++ m.toList.map Call.Release } := by
  cases m <;> simp [releaseIf]

theorem filterMap_cons_toList {α β : Type} (f : α → Option β) (a : α) (l : List α) :
    (a :: l).filterMap f = (f a).toList ++ l.filterMap f := by
  rw [List.filterMap_cons]
  cases f a <;> rfl

theorem held_eq (c : D3D11DrawContext) :
    held c = c.patchIndexBuffer.toList ++ (c.patchParamBuffer.toList ++
      (c.patchParamBufferSRV.toList ++ (c.fvarDataBuffer.toList ++
      (c.fvarDataBufferSRV.toList ++ (c.vertexBufferSRV.toList ++
      (c.vertexValenceBuffer.toList ++ (c.vertexValenceBufferSRV.toList ++
      (c.quadOffsetBuffer.toList ++ c.quadOffsetBufferSRV.toList)))))))) := by
  simp only [held, allSlots, filterMap_cons_toList, List.filterMap_nil, List.append_nil,
    D3D11DrawContext.get]

/-- The destructor issues one `Release` per non-NULL member, in member order, and nothing
else. -/
theorem destroy_eq (c : D3D11DrawContext) (d : Device) :
    destroy c d = { d with trace := d.trace ++ (held c).map Call.Release } := by
  simp only [destroy, releaseIf_eq, held_eq, List.map_append, List.append_assoc]

/-! ## C1 : the patch index buffer -/

/-- C1 (amended): when the patch control-vertices table has n < 2^30 entries and the
CreateBuffer and Map calls of the index stage succeed, `create` first requests the patch
index buffer with ByteWidth 4 * n, maps it, copies 4 * n bytes taken from the table and
unmaps it; the words copied are exactly the table, and the byte count of the copy equals
the requested ByteWidth. -/
theorem create_uploads_patch_index_buffer (env : Env) (pt : PatchTables) (nve : Int)
    (d : Device)
    (hCreate : (env.device d.calls).failed = false)
    (hMap : (env.device (d.calls + 1)).failed = false)
    (hn : pt.GetPatchControlVerticesTable.length < 1073741824) :
    ∃ rest, (create env pt nve ⟨D3D11DrawContext.new, d⟩).2.dev.trace =
      d.trace ++
        [Call.GetDevice,
         Call.CreateBuffer
           { ByteWidth := 4 * pt.GetPatchControlVerticesTable.length,
             Usage := .D3D11_USAGE_DYNAMIC,
             BindFlags := .D3D11_BIND_INDEX_BUFFER,
             CPUAccessFlags := .D3D11_CPU_ACCESS_WRITE,
             MiscFlags := 0,
             StructureByteStride := 4 }
           none .patchIndexBuffer false (some d.fresh),
         Call.Map (some d.fresh) false,
         Call.memcpy (some d.fresh) pt.GetPatchControlVerticesTable
           (4 * pt.GetPatchControlVerticesTable.length),
         Call.Unmap (some d.fresh)] ++ rest
      ∧ wordsCopied pt.GetPatchControlVerticesTable
          (4 * pt.GetPatchControlVerticesTable.length) = pt.GetPatchControlVerticesTable := by
  have hidx := createPatchIndex_of_ok env pt (createBegin pt ⟨D3D11DrawContext.new, d⟩)
    hCreate hMap
  obtain ⟨rest, hrest⟩ := seg_create_tables env pt nve ⟨D3D11DrawContext.new, d⟩
    (by rw [hidx])
  refine ⟨rest, ?_, wordsCopied_all _ _ (Nat.le_refl _)⟩
  rw [hrest.trace, hidx]
  have hmod : (4 * pt.GetPatchControlVerticesTable.length) % 4294967296
      = 4 * pt.GetPatchControlVerticesTable.length := by omega
  have hcopy := copySize_eq pt.GetPatchControlVerticesTable.length (by omega)
  simp [createBegin, State.emit, hmod, hcopy]

/-- Witness of C1 (amended): a table of three indices on the all-succeeding device. -/
theorem create_uploads_patch_index_buffer_witness :
    ∃ rest, (create okEnv (indexOnlyTables 3) 3 ⟨D3D11DrawContext.new, Device.init⟩).2.dev.trace =
      Device.init.trace ++
        [Call.GetDevice,
         Call.CreateBuffer
           { ByteWidth := 4 * (indexOnlyTables 3).GetPatchControlVerticesTable.length,
             Usage := .D3D11_USAGE_DYNAMIC,
             BindFlags := .D3D11_BIND_INDEX_BUFFER,
             CPUAccessFlags := .D3D11_CPU_ACCESS_WRITE,
             MiscFlags := 0,
             StructureByteStride := 4 }
           none .patchIndexBuffer false (some Device.init.fresh),
         Call.Map (some Device.init.fresh) false,
         Call.memcpy (some Device.init.fresh) (indexOnlyTables 3).GetPatchControlVerticesTable
           (4 * (indexOnlyTables 3).GetPatchControlVerticesTable.length),
         Call.Unmap (some Device.init.fresh)] ++ rest
      ∧ wordsCopied (indexOnlyTables 3).GetPatchControlVerticesTable
          (4 * (indexOnlyTables 3).GetPatchControlVerticesTable.length)
          = (indexOnlyTables 3).GetPatchControlVerticesTable :=
  create_uploads_patch_index_buffer okEnv (indexOnlyTables 3) 3 Device.init rfl rfl
    (by decide)

/-- C1 (counterexample): for a table of 2^30 indices on a device where every call
succeeds, the requested ByteWidth is 0 and not 4 * 2^30, while the copy is of 2^32 bytes:
the byte count of the copy differs from the requested ByteWidth. -/
theorem create_patch_index_bytewidth_wraps :
    (create okEnv (indexOnlyTables 1073741824) 0 ⟨D3D11DrawContext.new, Device.init⟩).2.dev.trace =
      [Call.GetDevice,
       Call.CreateBuffer
         { ByteWidth := 0,
           Usage := .D3D11_USAGE_DYNAMIC,
           BindFlags := .D3D11_BIND_INDEX_BUFFER,
           CPUAccessFlags := .D3D11_CPU_ACCESS_WRITE,
           MiscFlags := 0,
           StructureByteStride := 4 }
         none .patchIndexBuffer false (some 0),
       Call.Map (some 0) false,
       Call.memcpy (some 0) (indexOnlyTables 1073741824).GetPatchControlVerticesTable
         4294967296,
       Call.Unmap (some 0),
       Call.ConvertPatchArrays 0 0]
    ∧ 4 * (indexOnlyTables 1073741824).GetPatchControlVerticesTable.length = 4294967296 := by
  have hlen : (indexOnlyTables 1073741824).GetPatchControlVerticesTable.length = 1073741824 :=
    List.length_replicate _ _
  have h := create_index_only okEnv (indexOnlyTables 1073741824) 0 Device.init rfl rfl
    rfl rfl rfl
  rw [h, hlen]
  refine ⟨?_, by norm_num⟩
  have h1 : (4 * 1073741824) % 4294967296 = 0 := by norm_num
  have h2 : toSizeT (((1073741824 : Nat) : Int) * ((sizeofWord : Nat) : Int)) = 4294967296 := by
    unfold toSizeT sizeofWord
    omega
  simp only [h1, h2]
  rfl

/-! ## C2 : the patch param buffer -/

/-- C2 (amended): on a device where every call succeeds, for a non-empty patch-param
table of n entries with n * elementSize < 2^31, where elementSize is 8 without sharpness
indices and 12 with them (and `packSharpnessValues` returning 3 words per entry),
`create` requests the patch param buffer with ByteWidth n * elementSize, a view of format
R32G32_UINT (resp. R32G32B32_UINT) with first element 0 and n elements, and copies
n * elementSize bytes, which are exactly the patch-param table (resp. the output of
`packSharpnessValues`). -/
theorem create_uploads_patch_params (env : Env) (pt : PatchTables) (nve : Int) (d : Device)
    (hok : ∀ k, (env.device k).failed = false)
    (hne : pt.GetPatchParamTable ≠ [])
    (hsize : pt.GetPatchParamTable.length *
      (if pt.GetSharpnessIndexTable.isEmpty then 8 else 12) < 2147483648)
    (hpack : pt.GetSharpnessIndexTable ≠ [] →
      (env.packSharpnessValues pt).length = 3 * pt.GetPatchParamTable.length) :
    ∃ pre post h,
      (create env pt nve ⟨D3D11DrawContext.new, d⟩).2.dev.trace =
        d.trace ++ pre ++
          [Call.CreateBuffer
             { ByteWidth := pt.GetPatchParamTable.length *
                 (if pt.GetSharpnessIndexTable.isEmpty then 8 else 12),
               Usage := .D3D11_USAGE_DYNAMIC,
               BindFlags := .D3D11_BIND_SHADER_RESOURCE,
               CPUAccessFlags := .D3D11_CPU_ACCESS_WRITE,
               MiscFlags := 0,
               StructureByteStride := 4 }
             none .patchParamBuffer false (some h),
           Call.CreateShaderResourceView (some h)
             { Format := if pt.GetSharpnessIndexTable.isEmpty
                 then .DXGI_FORMAT_R32G32_UINT else .DXGI_FORMAT_R32G32B32_UINT,
               ViewDimension := .D3D11_SRV_DIMENSION_BUFFER,
               FirstElement := 0,
               NumElements := pt.GetPatchParamTable.length }
             .patchParamBufferSRV false (some (h + 1)),
           Call.Map (some h) false,
           Call.memcpy (some h)
             (if pt.GetSharpnessIndexTable.isEmpty
               then patchParamWords pt.GetPatchParamTable
               else env.packSharpnessValues pt)
             (pt.GetPatchParamTable.length *
               (if pt.GetSharpnessIndexTable.isEmpty then 8 else 12)),
           Call.Unmap (some h)] ++ post
      ∧ wordsCopied
          (if pt.GetSharpnessIndexTable.isEmpty
            then patchParamWords pt.GetPatchParamTable
            else env.packSharpnessValues pt)
          (pt.GetPatchParamTable.length *
            (if pt.GetSharpnessIndexTable.isEmpty then 8 else 12))
        = (if pt.GetSharpnessIndexTable.isEmpty
            then patchParamWords pt.GetPatchParamTable
            else env.packSharpnessValues pt)
      ∧ (create env pt nve ⟨D3D11DrawContext.new, d⟩).2.ctx.patchParamBuffer = some h
      ∧ (create env pt nve ⟨D3D11DrawContext.new, d⟩).2.ctx.patchParamBufferSRV
          = some (h + 1) := by
  obtain ⟨_, htr, hctx⟩ := create_of_allok env pt nve d hok
  have hne' : pt.GetPatchParamTable.isEmpty = false := by
    cases h : pt.GetPatchParamTable with
    | nil => exact absurd h hne
    | cons _ _ => rfl
  have hes : 0 < (if pt.GetSharpnessIndexTable.isEmpty = true then 8 else 12 : Nat) := by
    split <;> decide
  have hn : pt.GetPatchParamTable.length < 2147483648 := by
    split at hsize <;> omega
  have hbw : pt.GetPatchParamTable.length *
      (if pt.GetSharpnessIndexTable.isEmpty = true then 8 else 12) % 4294967296
      = pt.GetPatchParamTable.length *
      (if pt.GetSharpnessIndexTable.isEmpty = true then 8 else 12) := by
    omega
  have hnum : pt.GetPatchParamTable.length % 4294967296 = pt.GetPatchParamTable.length := by
    omega
  have hcopy := paramCopySize_eq pt.GetPatchParamTable.length _ hes hsize
  refine ⟨[Call.GetDevice] ++ indexCalls pt d.fresh
      ++ [Call.ConvertPatchArrays pt.GetMaxValence nve],
    (if pt.GetVertexValenceTable.isEmpty then []
      else tableCalls pt.GetVertexValenceTable .DXGI_FORMAT_R32_SINT
        .vertexValenceBuffer .vertexValenceBufferSRV (d.fresh + 3))
    ++ (if pt.GetQuadOffsetsTable.isEmpty then []
      else tableCalls pt.GetQuadOffsetsTable .DXGI_FORMAT_R32_SINT
        .quadOffsetBuffer .quadOffsetBufferSRV
        (if pt.GetVertexValenceTable.isEmpty then d.fresh + 3 else d.fresh + 3 + 2)),
    d.fresh + 1, ?_, ?_, ?_, ?_⟩
  · rw [htr]
    simp only [createCalls, paramCalls, hne', Bool.false_eq_true, if_false, hbw, hnum, hcopy]
    simp only [List.append_assoc]
  · apply wordsCopied_all
    cases hs : pt.GetSharpnessIndexTable.isEmpty
    · have hs' : pt.GetSharpnessIndexTable ≠ [] := by
        intro h
        rw [h] at hs
        cases hs
      simp only [Bool.false_eq_true, if_false, hpack hs']
      omega
    · simp only [if_true, patchParamWords_length]
      omega
  · rw [hctx]
    simp [createMembers, hne']
  · rw [hctx]
    simp [createMembers, hne']

/-- Witness of C2 (amended): two patch params with sharpness indices on the
all-succeeding device. -/
theorem create_uploads_patch_params_witness :
    ∃ pre post h,
      (create creaseEnv creaseTables 3 ⟨D3D11DrawContext.new, Device.init⟩).2.dev.trace =
        Device.init.trace ++ pre ++
          [Call.CreateBuffer
             { ByteWidth := creaseTables.GetPatchParamTable.length *
                 (if creaseTables.GetSharpnessIndexTable.isEmpty then 8 else 12),
               Usage := .D3D11_USAGE_DYNAMIC,
               BindFlags := .D3D11_BIND_SHADER_RESOURCE,
               CPUAccessFlags := .D3D11_CPU_ACCESS_WRITE,
               MiscFlags := 0,
               StructureByteStride := 4 }
             none .patchParamBuffer false (some h),
           Call.CreateShaderResourceView (some h)
             { Format := if creaseTables.GetSharpnessIndexTable.isEmpty
                 then .DXGI_FORMAT_R32G32_UINT else .DXGI_FORMAT_R32G32B32_UINT,
               ViewDimension := .D3D11_SRV_DIMENSION_BUFFER,
               FirstElement := 0,
               NumElements := creaseTables.GetPatchParamTable.length }
             .patchParamBufferSRV false (some (h + 1)),
           Call.Map (some h) false,
           Call.memcpy (some h)
             (if creaseTables.GetSharpnessIndexTable.isEmpty
               then patchParamWords creaseTables.GetPatchParamTable
               else creaseEnv.packSharpnessValues creaseTables)
             (creaseTables.GetPatchParamTable.length *
               (if creaseTables.GetSharpnessIndexTable.isEmpty then 8 else 12)),
           Call.Unmap (some h)] ++ post
      ∧ wordsCopied
          (if creaseTables.GetSharpnessIndexTable.isEmpty
            then patchParamWords creaseTables.GetPatchParamTable
            else creaseEnv.packSharpnessValues creaseTables)
          (creaseTables.GetPatchParamTable.length *
            (if creaseTables.GetSharpnessIndexTable.isEmpty then 8 else 12))
        = (if creaseTables.GetSharpnessIndexTable.isEmpty
            then patchParamWords creaseTables.GetPatchParamTable
            else creaseEnv.packSharpnessValues creaseTables)
      ∧ (create creaseEnv creaseTables 3 ⟨D3D11DrawContext.new, Device.init⟩).2.ctx.patchParamBuffer
          = some h
      ∧ (create creaseEnv creaseTables 3
          ⟨D3D11DrawContext.new, Device.init⟩).2.ctx.patchParamBufferSRV = some (h + 1) :=
  create_uploads_patch_params creaseEnv creaseTables 3 Device.init (fun _ => rfl)
    (by decide) (by decide) (fun _ => rfl)

/-- The calls of `create` when only the index and patch-param tables are non-empty. -/
theorem createCalls_param_only (env : Env) (pt : PatchTables) (nve : Int) (h : Nat)
    (hpp : pt.GetPatchParamTable.isEmpty = false)
    (hvv : pt.GetVertexValenceTable.isEmpty = true)
    (hqo : pt.GetQuadOffsetsTable.isEmpty = true) :
    createCalls env pt nve h =
      [Call.GetDevice] ++ indexCalls pt h
        ++ [Call.ConvertPatchArrays pt.GetMaxValence nve] ++ paramCalls env pt (h + 1) := by
  simp [createCalls, hpp, hvv, hqo]

/-- C2 (counterexample): for 2^28 patch params without sharpness indices on a device
where every call succeeds, the buffer is requested with ByteWidth 2^31 while the copy is of
2^64 - 2^31 bytes (the `int` product -2^31 converted to `size_t`): the byte count of the
copy differs from the requested ByteWidth. -/
theorem create_patch_param_copy_size_wraps :
    (create okEnv (paramTables 268435456) 0 ⟨D3D11DrawContext.new, Device.init⟩).2.dev.trace =
      [Call.GetDevice,
       Call.CreateBuffer
         { ByteWidth := 16,
           Usage := .D3D11_USAGE_DYNAMIC,
           BindFlags := .D3D11_BIND_INDEX_BUFFER,
           CPUAccessFlags := .D3D11_CPU_ACCESS_WRITE,
           MiscFlags := 0,
           StructureByteStride := 4 }
         none .patchIndexBuffer false (some 0),
       Call.Map (some 0) false,
       Call.memcpy (some 0) [0, 1, 2, 3] 16,
       Call.Unmap (some 0),
       Call.ConvertPatchArrays 4 0,
       Call.CreateBuffer
         { ByteWidth := 2147483648,
           Usage := .D3D11_USAGE_DYNAMIC,
           BindFlags := .D3D11_BIND_SHADER_RESOURCE,
           CPUAccessFlags := .D3D11_CPU_ACCESS_WRITE,
           MiscFlags := 0,
           StructureByteStride := 4 }
         none .patchParamBuffer false (some 1),
       Call.CreateShaderResourceView (some 1)
         { Format := .DXGI_FORMAT_R32G32_UINT,
           ViewDimension := .D3D11_SRV_DIMENSION_BUFFER,
           FirstElement := 0,
           NumElements := 268435456 }
         .patchParamBufferSRV false (some 2),
       Call.Map (some 1) false,
       Call.memcpy (some 1) (patchParamWords (paramTables 268435456).GetPatchParamTable)
         18446744071562067968,
       Call.Unmap (some 1)]
    ∧ (paramTables 268435456).GetPatchParamTable.length * 8 = 2147483648 := by
  have hlen : (paramTables 268435456).GetPatchParamTable.length = 268435456 :=
    List.length_replicate _ _
  have hpp : (paramTables 268435456).GetPatchParamTable.isEmpty = false := rfl
  obtain ⟨_, htr, _⟩ := create_of_allok okEnv (paramTables 268435456) 0 Device.init
    (fun _ => rfl)
  rw [htr, createCalls_param_only okEnv (paramTables 268435456) 0 _ hpp rfl rfl, hlen]
  refine ⟨?_, by norm_num⟩
  have hs : (paramTables 268435456).GetSharpnessIndexTable.isEmpty = true := rfl
  have hidx : (paramTables 268435456).GetPatchControlVerticesTable = [0, 1, 2, 3] := rfl
  have hmv : (paramTables 268435456).GetMaxValence = 4 := rfl
  have h1 : 268435456 * 8 % 4294967296 = 2147483648 := by norm_num
  have h0 : 268435456 % 4294967296 = 268435456 := by norm_num
  have h2 : toSizeT (toInt (toInt ((268435456 : Nat) : Int) * ((8 : Nat) : Int)))
      = 18446744071562067968 := by
    unfold toSizeT toInt
    omega
  have h3 : toSizeT (((4 : Nat) : Int) * ((sizeofWord : Nat) : Int)) = 16 := by
    unfold toSizeT sizeofWord
    omega
  simp only [indexCalls, paramCalls, hlen, hs, hidx, hmv, if_true, h0, h1, h2, h3,
    List.length_cons, List.length_nil]
  rfl

/-! ## C3 : the vertex valence and quad offsets buffers -/

/-- C3 (amended): on a device where every call succeeds, for either of the vertex
valence table and the quad offsets table, when it is non-empty with k < 2^30 entries,
`create` creates a buffer of ByteWidth 4 * k whose initial data is that table and a view
on that very buffer with format R32_SINT, first element 0 and k elements; both are
written to the members of that table (valence to vertexValenceBuffer and
vertexValenceBufferSRV, quad offsets to quadOffsetBuffer and quadOffsetBufferSRV), and no
other call of `create` writes these two members. -/
theorem create_uploads_gregory_table (env : Env) (pt : PatchTables) (nve : Int) (d : Device)
    (which : GregoryTable)
    (hok : ∀ k, (env.device k).failed = false)
    (hne : which.table pt ≠ [])
    (hk : (which.table pt).length < 1073741824) :
    ∃ pre post h,
      (create env pt nve ⟨D3D11DrawContext.new, d⟩).2.dev.trace =
        d.trace ++ pre ++
          [Call.CreateBuffer
             { ByteWidth := 4 * (which.table pt).length,
               Usage := .D3D11_USAGE_DEFAULT,
               BindFlags := .D3D11_BIND_SHADER_RESOURCE,
               CPUAccessFlags := .NONE,
               MiscFlags := 0,
               StructureByteStride := 4 }
             (some (which.table pt)) which.buffer false (some h),
           Call.CreateShaderResourceView (some h)
             { Format := .DXGI_FORMAT_R32_SINT,
               ViewDimension := .D3D11_SRV_DIMENSION_BUFFER,
               FirstElement := 0,
               NumElements := (which.table pt).length }
             which.srv false (some (h + 1))] ++ post
      ∧ (∀ c ∈ pre ++ post, c.target ≠ some which.buffer ∧ c.target ≠ some which.srv)
      ∧ (create env pt nve ⟨D3D11DrawContext.new, d⟩).2.ctx.get which.buffer = some h
      ∧ (create env pt nve ⟨D3D11DrawContext.new, d⟩).2.ctx.get which.srv = some (h + 1) := by
  obtain ⟨_, htr, hctx⟩ := create_of_allok env pt nve d hok
  have hne' := isEmpty_eq_false_of_ne_nil _ hne
  have hbw : 4 * (which.table pt).length % 4294967296 = 4 * (which.table pt).length := by
    omega
  have hnum : (which.table pt).length % 4294967296 = (which.table pt).length := by
    omega
  cases which with
  | vertexValence =>
    simp only [GregoryTable.table, GregoryTable.buffer, GregoryTable.srv] at *
    refine ⟨[Call.GetDevice] ++ indexCalls pt d.fresh
        ++ [Call.ConvertPatchArrays pt.GetMaxValence nve]
        ++ (if pt.GetPatchParamTable.isEmpty then [] else paramCalls env pt (d.fresh + 1)),
      (if pt.GetQuadOffsetsTable.isEmpty then []
        else tableCalls pt.GetQuadOffsetsTable .DXGI_FORMAT_R32_SINT
          .quadOffsetBuffer .quadOffsetBufferSRV
          ((if pt.GetPatchParamTable.isEmpty then d.fresh + 1 else d.fresh + 3) + 2)),
      (if pt.GetPatchParamTable.isEmpty then d.fresh + 1 else d.fresh + 3), ?_, ?_, ?_, ?_⟩
    · rw [htr]
      simp only [createCalls, tableCalls, hne', Bool.false_eq_true, if_false, hbw, hnum]
      simp only [List.append_assoc]
    · cases hpp : pt.GetPatchParamTable.isEmpty <;> cases hqo : pt.GetQuadOffsetsTable.isEmpty <;>
        simp [indexCalls, paramCalls, tableCalls, Call.target]
    · rw [hctx]
      simp [createMembers, D3D11DrawContext.get, hne']
    · rw [hctx]
      simp [createMembers, D3D11DrawContext.get, hne']
  | quadOffsets =>
    simp only [GregoryTable.table, GregoryTable.buffer, GregoryTable.srv] at *
    refine ⟨[Call.GetDevice] ++ indexCalls pt d.fresh
        ++ [Call.ConvertPatchArrays pt.GetMaxValence nve]
        ++ (if pt.GetPatchParamTable.isEmpty then [] else paramCalls env pt (d.fresh + 1))
        ++ (if pt.GetVertexValenceTable.isEmpty then []
            else tableCalls pt.GetVertexValenceTable .DXGI_FORMAT_R32_SINT
              .vertexValenceBuffer .vertexValenceBufferSRV
              (if pt.GetPatchParamTable.isEmpty then d.fresh + 1 else d.fresh + 3)),
      [],
      (if pt.GetVertexValenceTable.isEmpty
        then (if pt.GetPatchParamTable.isEmpty then d.fresh + 1 else d.fresh + 3)
        else (if pt.GetPatchParamTable.isEmpty then d.fresh + 1 else d.fresh + 3) + 2),
      ?_, ?_, ?_, ?_⟩
    · rw [htr]
      simp only [createCalls, tableCalls, hne', Bool.false_eq_true, if_false, hbw, hnum]
      simp only [List.append_assoc, List.append_nil]
    · cases hpp : pt.GetPatchParamTable.isEmpty <;>
        cases hvv : pt.GetVertexValenceTable.isEmpty <;>
        simp [indexCalls, paramCalls, tableCalls, Call.target]
    · rw [hctx]
      simp [createMembers, D3D11DrawContext.get, hne']
    · rw [hctx]
      simp [createMembers, D3D11DrawContext.get, hne']

/-- Witness of C3 (amended): three quad offsets next to two valence entries on the
all-succeeding device. -/
theorem create_uploads_gregory_table_witness :
    ∃ pre post h,
      (create okEnv (gregoryTables 2 3) 3 ⟨D3D11DrawContext.new, Device.init⟩).2.dev.trace =
        Device.init.trace ++ pre ++
          [Call.CreateBuffer
             { ByteWidth := 4 * (GregoryTable.quadOffsets.table (gregoryTables 2 3)).length,
               Usage := .D3D11_USAGE_DEFAULT,
               BindFlags := .D3D11_BIND_SHADER_RESOURCE,
               CPUAccessFlags := .NONE,
               MiscFlags := 0,
               StructureByteStride := 4 }
             (some (GregoryTable.quadOffsets.table (gregoryTables 2 3)))
             GregoryTable.quadOffsets.buffer false (some h),
           Call.CreateShaderResourceView (some h)
             { Format := .DXGI_FORMAT_R32_SINT,
               ViewDimension := .D3D11_SRV_DIMENSION_BUFFER,
               FirstElement := 0,
               NumElements := (GregoryTable.quadOffsets.table (gregoryTables 2 3)).length }
             GregoryTable.quadOffsets.srv false (some (h + 1))] ++ post
      ∧ (∀ c ∈ pre ++ post, c.target ≠ some GregoryTable.quadOffsets.buffer ∧
          c.target ≠ some GregoryTable.quadOffsets.srv)
      ∧ (create okEnv (gregoryTables 2 3) 3 ⟨D3D11DrawContext.new, Device.init⟩).2.ctx.get
          GregoryTable.quadOffsets.buffer = some h
      ∧ (create okEnv (gregoryTables 2 3) 3 ⟨D3D11DrawContext.new, Device.init⟩).2.ctx.get
          GregoryTable.quadOffsets.srv = some (h + 1) :=
  create_uploads_gregory_table okEnv (gregoryTables 2 3) 3 Device.init .quadOffsets
    (fun _ => rfl) (by decide) (by decide)

/-- The calls of `create` when only the index and vertex valence tables are non-empty. -/
theorem createCalls_valence_only (env : Env) (pt : PatchTables) (nve : Int) (h : Nat)
    (hpp : pt.GetPatchParamTable.isEmpty = true)
    (hvv : pt.GetVertexValenceTable.isEmpty = false)
    (hqo : pt.GetQuadOffsetsTable.isEmpty = true) :
    createCalls env pt nve h =
      [Call.GetDevice] ++ indexCalls pt h
        ++ [Call.ConvertPatchArrays pt.GetMaxValence nve]
        ++ tableCalls pt.GetVertexValenceTable .DXGI_FORMAT_R32_SINT
             .vertexValenceBuffer .vertexValenceBufferSRV (h + 1) := by
  simp [createCalls, hpp, hvv, hqo]

/-- C3 (counterexample): for a vertex valence table of 2^30 entries on a device where
every call succeeds, the requested ByteWidth is 0 and not 4 * 2^30, under a view of 2^30
elements. -/
theorem create_valence_bytewidth_wraps :
    (create okEnv (gregoryTables 1073741824 0) 0
        ⟨D3D11DrawContext.new, Device.init⟩).2.dev.trace =
      [Call.GetDevice,
       Call.CreateBuffer
         { ByteWidth := 16,
           Usage := .D3D11_USAGE_DYNAMIC,
           BindFlags := .D3D11_BIND_INDEX_BUFFER,
           CPUAccessFlags := .D3D11_CPU_ACCESS_WRITE,
           MiscFlags := 0,
           StructureByteStride := 4 }
         none .patchIndexBuffer false (some 0),
       Call.Map (some 0) false,
       Call.memcpy (some 0) [0, 1, 2, 3] 16,
       Call.Unmap (some 0),
       Call.ConvertPatchArrays 4 0,
       Call.CreateBuffer
         { ByteWidth := 0,
           Usage := .D3D11_USAGE_DEFAULT,
           BindFlags := .D3D11_BIND_SHADER_RESOURCE,
           CPUAccessFlags := .NONE,
           MiscFlags := 0,
           StructureByteStride := 4 }
         (some (gregoryTables 1073741824 0).GetVertexValenceTable)
         .vertexValenceBuffer false (some 1),
       Call.CreateShaderResourceView (some 1)
         { Format := .DXGI_FORMAT_R32_SINT,
           ViewDimension := .D3D11_SRV_DIMENSION_BUFFER,
           FirstElement := 0,
           NumElements := 1073741824 }
         .vertexValenceBufferSRV false (some 2)]
    ∧ 4 * (gregoryTables 1073741824 0).GetVertexValenceTable.length = 4294967296 := by
  have hlen : (gregoryTables 1073741824 0).GetVertexValenceTable.length = 1073741824 :=
    List.length_replicate _ _
  have hvv : (gregoryTables 1073741824 0).GetVertexValenceTable.isEmpty = false := rfl
  obtain ⟨_, htr, _⟩ := create_of_allok okEnv (gregoryTables 1073741824 0) 0 Device.init
    (fun _ => rfl)
  rw [htr, createCalls_valence_only okEnv (gregoryTables 1073741824 0) 0 _ rfl hvv rfl, hlen]
  refine ⟨?_, by norm_num⟩
  have hidx : (gregoryTables 1073741824 0).GetPatchControlVerticesTable = [0, 1, 2, 3] := rfl
  have hmv : (gregoryTables 1073741824 0).GetMaxValence = 4 := rfl
  have h1 : 4 * 1073741824 % 4294967296 = 0 := by norm_num
  have h3 : toSizeT (((4 : Nat) : Int) * ((sizeofWord : Nat) : Int)) = 16 := by
    unfold toSizeT sizeofWord
    omega
  simp only [indexCalls, tableCalls, hlen, hidx, hmv, h1, h3, List.length_cons,
    List.length_nil]
  rfl

/-! ## C4 : the face-varying data buffer -/

/-- The calls and the result of `SetFVarDataTexture` for non-empty data, whatever the
device answers. -/
theorem SetFVarDataTexture_spec (env : Env) (pt : PatchTables) (w : Int)
    (fv : List Word32) (s : State) (hne : fv.isEmpty = false) :
    (SetFVarDataTexture env pt w fv s).2.dev.trace =
      s.dev.trace ++
        [Call.GetDevice,
         Call.CreateBuffer
           { ByteWidth := (4 * (env.packFVarData pt w fv).length) % 4294967296,
             Usage := .D3D11_USAGE_DEFAULT,
             BindFlags := .D3D11_BIND_SHADER_RESOURCE,
             CPUAccessFlags := .NONE,
             MiscFlags := 0,
             StructureByteStride := 4 }
           (some (env.packFVarData pt w fv)) .fvarDataBuffer
           (env.device s.dev.calls).failed
           ((env.device s.dev.calls).out s.ctx.fvarDataBuffer s.dev.fresh)] ++
        (if (env.device s.dev.calls).failed then []
         else [Call.CreateShaderResourceView (some s.dev.fresh)
           { Format := .DXGI_FORMAT_R32_FLOAT,
             ViewDimension := .D3D11_SRV_DIMENSION_BUFFER,
             FirstElement := 0,
             NumElements := (env.packFVarData pt w fv).length % 4294967296 }
           .fvarDataBufferSRV (env.device (s.dev.calls + 1)).failed
           ((env.device (s.dev.calls + 1)).out s.ctx.fvarDataBufferSRV (s.dev.fresh + 1))])
    ∧ ((SetFVarDataTexture env pt w fv s).1 = true ↔
        ((env.device s.dev.calls).failed = false ∧
         (env.device (s.dev.calls + 1)).failed = false))
    ∧ ((SetFVarDataTexture env pt w fv s).1 = true →
        (SetFVarDataTexture env pt w fv s).2.ctx.fvarDataBuffer = some s.dev.fresh ∧
        (SetFVarDataTexture env pt w fv s).2.ctx.fvarDataBufferSRV
          = some (s.dev.fresh + 1)) := by
  unfold SetFVarDataTexture createTableBuffer
  simp only [hne, Bool.false_eq_true, if_false, tableByteWidth_eq]
  cases h0 : (env.device s.dev.calls).failed <;>
    cases h1 : (env.device (s.dev.calls + 1)).failed <;>
    simp [CreateBuffer, CreateShaderResourceView, State.emit, HRESULT.out, h0, h1,
      D3D11DrawContext.set, D3D11DrawContext.get, sizeofWord, toUINT_natCast]

/-- C4 (amended): for non-empty fvarData whose packed table has m < 2^30 entries,
`SetFVarDataTexture` requests fvarDataBuffer with ByteWidth 4 * m and the packed table as
initial data and, only when that request succeeds, fvarDataBufferSRV on the new buffer
with format R32_FLOAT, first element 0 and m elements; it returns true if and only if
both requests succeed. -/
theorem SetFVarDataTexture_uploads_packed_table (env : Env) (pt : PatchTables) (w : Int)
    (fv : List Word32) (s : State) (hne : fv ≠ [])
    (hm : (env.packFVarData pt w fv).length < 1073741824) :
    (SetFVarDataTexture env pt w fv s).2.dev.trace =
      s.dev.trace ++
        [Call.GetDevice,
         Call.CreateBuffer
           { ByteWidth := 4 * (env.packFVarData pt w fv).length,
             Usage := .D3D11_USAGE_DEFAULT,
             BindFlags := .D3D11_BIND_SHADER_RESOURCE,
             CPUAccessFlags := .NONE,
             MiscFlags := 0,
             StructureByteStride := 4 }
           (some (env.packFVarData pt w fv)) .fvarDataBuffer
           (env.device s.dev.calls).failed
           ((env.device s.dev.calls).out s.ctx.fvarDataBuffer s.dev.fresh)] ++
        (if (env.device s.dev.calls).failed then []
         else [Call.CreateShaderResourceView (some s.dev.fresh)
           { Format := .DXGI_FORMAT_R32_FLOAT,
             ViewDimension := .D3D11_SRV_DIMENSION_BUFFER,
             FirstElement := 0,
             NumElements := (env.packFVarData pt w fv).length }
           .fvarDataBufferSRV (env.device (s.dev.calls + 1)).failed
           ((env.device (s.dev.calls + 1)).out s.ctx.fvarDataBufferSRV (s.dev.fresh + 1))])
    ∧ ((SetFVarDataTexture env pt w fv s).1 = true ↔
        ((env.device s.dev.calls).failed = false ∧
         (env.device (s.dev.calls + 1)).failed = false))
    ∧ ((SetFVarDataTexture env pt w fv s).1 = true →
        (SetFVarDataTexture env pt w fv s).2.ctx.fvarDataBuffer = some s.dev.fresh ∧
        (SetFVarDataTexture env pt w fv s).2.ctx.fvarDataBufferSRV
          = some (s.dev.fresh + 1)) := by
  have h := SetFVarDataTexture_spec env pt w fv s (isEmpty_eq_false_of_ne_nil _ hne)
  have hbw : 4 * (env.packFVarData pt w fv).length % 4294967296
      = 4 * (env.packFVarData pt w fv).length := by omega
  have hnum : (env.packFVarData pt w fv).length % 4294967296
      = (env.packFVarData pt w fv).length := by omega
  rw [hbw, hnum] at h
  exact h

/-- Witness of C4 (amended): three floats on the all-succeeding device. -/
theorem SetFVarDataTexture_uploads_packed_table_witness :
    (SetFVarDataTexture okEnv (indexOnlyTables 3) 1 [5, 6, 7]
        ⟨D3D11DrawContext.new, Device.init⟩).2.dev.trace =
      Device.init.trace ++
        [Call.GetDevice,
         Call.CreateBuffer
           { ByteWidth := 4 * (okEnv.packFVarData (indexOnlyTables 3) 1 [5, 6, 7]).length,
             Usage := .D3D11_USAGE_DEFAULT,
             BindFlags := .D3D11_BIND_SHADER_RESOURCE,
             CPUAccessFlags := .NONE,
             MiscFlags := 0,
             StructureByteStride := 4 }
           (some (okEnv.packFVarData (indexOnlyTables 3) 1 [5, 6, 7])) .fvarDataBuffer
           (okEnv.device Device.init.calls).failed
           ((okEnv.device Device.init.calls).out D3D11DrawContext.new.fvarDataBuffer
             Device.init.fresh)] ++
        (if (okEnv.device Device.init.calls).failed then []
         else [Call.CreateShaderResourceView (some Device.init.fresh)
           { Format := .DXGI_FORMAT_R32_FLOAT,
             ViewDimension := .D3D11_SRV_DIMENSION_BUFFER,
             FirstElement := 0,
             NumElements := (okEnv.packFVarData (indexOnlyTables 3) 1 [5, 6, 7]).length }
           .fvarDataBufferSRV (okEnv.device (Device.init.calls + 1)).failed
           ((okEnv.device (Device.init.calls + 1)).out
             D3D11DrawContext.new.fvarDataBufferSRV (Device.init.fresh + 1))])
    ∧ ((SetFVarDataTexture okEnv (indexOnlyTables 3) 1 [5, 6, 7]
          ⟨D3D11DrawContext.new, Device.init⟩).1 = true ↔
        ((okEnv.device Device.init.calls).failed = false ∧
         (okEnv.device (Device.init.calls + 1)).failed = false))
    ∧ ((SetFVarDataTexture okEnv (indexOnlyTables 3) 1 [5, 6, 7]
          ⟨D3D11DrawContext.new, Device.init⟩).1 = true →
        (SetFVarDataTexture okEnv (indexOnlyTables 3) 1 [5, 6, 7]
          ⟨D3D11DrawContext.new, Device.init⟩).2.ctx.fvarDataBuffer
            = some Device.init.fresh ∧
        (SetFVarDataTexture okEnv (indexOnlyTables 3) 1 [5, 6, 7]
          ⟨D3D11DrawContext.new, Device.init⟩).2.ctx.fvarDataBufferSRV
            = some (Device.init.fresh + 1)) :=
  SetFVarDataTexture_uploads_packed_table okEnv (indexOnlyTables 3) 1 [5, 6, 7]
    ⟨D3D11DrawContext.new, Device.init⟩ (by decide) (by decide)

/-- C4 (counterexample): for face-varying data packed into 2^30 floats on a device where
every call succeeds, fvarDataBuffer is requested with ByteWidth 0 and not 4 * 2^30, under a
view of 2^30 elements. -/
theorem SetFVarDataTexture_bytewidth_wraps :
    (SetFVarDataTexture okEnv (indexOnlyTables 3) 1 bigFVarData
        ⟨D3D11DrawContext.new, Device.init⟩).2.dev.trace =
      [Call.GetDevice,
       Call.CreateBuffer
         { ByteWidth := 0,
           Usage := .D3D11_USAGE_DEFAULT,
           BindFlags := .D3D11_BIND_SHADER_RESOURCE,
           CPUAccessFlags := .NONE,
           MiscFlags := 0,
           StructureByteStride := 4 }
         (some (okEnv.packFVarData (indexOnlyTables 3) 1 bigFVarData)) .fvarDataBuffer
         false (some 0),
       Call.CreateShaderResourceView (some 0)
         { Format := .DXGI_FORMAT_R32_FLOAT,
           ViewDimension := .D3D11_SRV_DIMENSION_BUFFER,
           FirstElement := 0,
           NumElements := 1073741824 }
         .fvarDataBufferSRV false (some 1)]
    ∧ 4 * (okEnv.packFVarData (indexOnlyTables 3) 1 bigFVarData).length = 4294967296 := by
  have hlen : (okEnv.packFVarData (indexOnlyTables 3) 1 bigFVarData).length = 1073741824 :=
    List.length_replicate _ _
  have hne : bigFVarData.isEmpty = false := rfl
  obtain ⟨htr, _, _⟩ := SetFVarDataTexture_spec okEnv (indexOnlyTables 3) 1 bigFVarData
    ⟨D3D11DrawContext.new, Device.init⟩ hne
  rw [htr, hlen]
  refine ⟨?_, by norm_num⟩
  have h1 : 4 * 1073741824 % 4294967296 = 0 := by norm_num
  have h2 : 1073741824 % 4294967296 = 1073741824 := by norm_num
  have hf0 : (okEnv.device (State.mk D3D11DrawContext.new Device.init).dev.calls).failed
      = false := rfl
  have hf1 : (okEnv.device ((State.mk D3D11DrawContext.new Device.init).dev.calls + 1)).failed
      = false := rfl
  simp only [h1, h2, hf0, hf1, Bool.false_eq_true, if_false]
  rfl

/-! ## C5 : the life of a context -/

/-- C5 (evaluation): on a device where every call succeeds, a context is created, then
`updateVertexTexture` is called twice, then the context is destroyed.  Three objects are
created (the index buffer 0 and the views 1 and 2) and only two are released: the first
view, overwritten in vertexBufferSRV by the second call, is never released.  The same
happens to the buffer and view of a first `SetFVarDataTexture` call when a second one
follows. -/
theorem lifecycle_leaks_overwritten_members :
    created (lifecycle okEnv (indexOnlyTables 3) 3
        [Op.updateVertexTexture (some 100) 4 3, Op.updateVertexTexture (some 100) 4 3]
        Device.init).trace = [0, 1, 2]
    ∧ released (lifecycle okEnv (indexOnlyTables 3) 3
        [Op.updateVertexTexture (some 100) 4 3, Op.updateVertexTexture (some 100) 4 3]
        Device.init).trace = [0, 2]
    ∧ created (lifecycle okEnv (indexOnlyTables 3) 3
        [Op.SetFVarDataTexture (indexOnlyTables 3) 1 [5, 6],
         Op.SetFVarDataTexture (indexOnlyTables 3) 1 [5, 6]]
        Device.init).trace = [0, 1, 2, 3, 4]
    ∧ released (lifecycle okEnv (indexOnlyTables 3) 3
        [Op.SetFVarDataTexture (indexOnlyTables 3) 1 [5, 6],
         Op.SetFVarDataTexture (indexOnlyTables 3) 1 [5, 6]]
        Device.init).trace = [0, 3, 4] := by
  refine ⟨?_, ?_, ?_, ?_⟩ <;> rfl

/-! ## C6 : `Create` and its failure path -/

theorem allSlots_filterMap_eq (pt : PatchTables) (g : Slot → Option Handle)
    (hg : ∀ slot, slot ∉ createSlots pt → g slot = none) :
    allSlots.filterMap g = (createSlots pt).filterMap g := by
  have h1 := hg Slot.fvarDataBuffer
  have h2 := hg Slot.fvarDataBufferSRV
  have h3 := hg Slot.vertexBufferSRV
  have h4 := hg Slot.patchParamBuffer
  have h5 := hg Slot.patchParamBufferSRV
  have h6 := hg Slot.vertexValenceBuffer
  have h7 := hg Slot.vertexValenceBufferSRV
  have h8 := hg Slot.quadOffsetBuffer
  have h9 := hg Slot.quadOffsetBufferSRV
  unfold createSlots paramSlots valenceSlots quadSlots at *
  cases hpp : pt.GetPatchParamTable.isEmpty <;>
    cases hvv : pt.GetVertexValenceTable.isEmpty <;>
    cases hqo : pt.GetQuadOffsetsTable.isEmpty <;>
    simp [hpp, hvv, hqo] at h1 h2 h3 h4 h5 h6 h7 h8 h9 <;>
    simp [allSlots, filterMap_cons_toList, *]

/-- After `create` on a fresh context, the non-NULL members are exactly the objects
created, each held once. -/
theorem held_after_create (env : Env) (pt : PatchTables) (nve : Int) (d : Device) :
    ∃ new,
      (create env pt nve ⟨D3D11DrawContext.new, d⟩).2.dev.trace = d.trace ++ new
      ∧ held (create env pt nve ⟨D3D11DrawContext.new, d⟩).2.ctx = created new
      ∧ (created new).Nodup ∧ released new = [] := by
  obtain ⟨new, hseg⟩ := seg_create env pt nve ⟨D3D11DrawContext.new, d⟩
  refine ⟨new, hseg.trace, ?_, hseg.nodup, hseg.norelease⟩
  unfold held
  rw [allSlots_filterMap_eq pt _ (fun slot hs => by rw [hseg.frame slot hs]; exact get_new slot)]
  exact hseg.held (fun slot _ => get_new slot)

theorem released_map_Release (l : List Handle) : released (l.map Call.Release) = l := by
  simp only [released, List.filterMap_map]
  have : (Call.releases ∘ Call.Release) = some := rfl
  rw [this, List.filterMap_some]

theorem created_map_Release (l : List Handle) : created (l.map Call.Release) = [] := by
  simp only [created, List.filterMap_map]
  rw [List.filterMap_eq_nil_iff]
  intro a _
  rfl

/-- C6: `Create` returns NULL if and only if `create` returns false, and otherwise returns
the context built by `create`; when it returns NULL, the calls of `Create` are the calls
`made` by `create` followed by the calls of the destructor run on the partly built
context, which are one `Release` for each object `create` created, in order of creation:
`create` itself releases nothing, the non-NULL members of the partly built context are
exactly the objects it created, without repetition, so over the whole call every created
object is released exactly once and nothing else is released. -/
theorem Create_null_iff_create_fails_and_releases_all (env : Env) (pt : PatchTables)
    (nve : Int) (d : Device) :
    ((Create env pt nve d).1 = none ↔
        (create env pt nve ⟨D3D11DrawContext.new, d⟩).1 = false)
    ∧ ((create env pt nve ⟨D3D11DrawContext.new, d⟩).1 = true →
        Create env pt nve d =
          (some (create env pt nve ⟨D3D11DrawContext.new, d⟩).2.ctx,
           (create env pt nve ⟨D3D11DrawContext.new, d⟩).2.dev))
    ∧ ((Create env pt nve d).1 = none →
        ∃ made new,
          (create env pt nve ⟨D3D11DrawContext.new, d⟩).2.dev.trace = d.trace ++ made
          ∧ new = made ++ (created made).map Call.Release
          ∧ (Create env pt nve d).2.trace = d.trace ++ new
          ∧ allSlots.filterMap (create env pt nve ⟨D3D11DrawContext.new, d⟩).2.ctx.get
              = created made
          ∧ released made = []
          ∧ created new = created made
          ∧ released new = created new
          ∧ (created new).Nodup
          ∧ (∀ h ∈ created new, (released new).count h = 1)
          ∧ (∀ h ∈ released new, h ∈ created new)) := by
  refine ⟨?_, ?_, ?_⟩
  · unfold Create
    cases h : (create env pt nve ⟨D3D11DrawContext.new, d⟩).1 <;> simp [h]
  · intro h
    unfold Create
    simp [h]
  · intro hnull
    have hfalse : (create env pt nve ⟨D3D11DrawContext.new, d⟩).1 = false := by
      cases h : (create env pt nve ⟨D3D11DrawContext.new, d⟩).1
      · rfl
      · unfold Create at hnull
        simp [h] at hnull
    obtain ⟨made, htr, hheld, hnodup, hnorel⟩ := held_after_create env pt nve d
    have hrel : released (made ++ (created made).map Call.Release) = created made := by
      rw [released_append, hnorel, released_map_Release]
      exact List.nil_append _
    have hcre : created (made ++ (created made).map Call.Release) = created made := by
      rw [created_append, created_map_Release, List.append_nil]
    refine ⟨made, made ++ (created made).map Call.Release, htr, rfl, ?_, hheld, hnorel,
      hcre, ?_, ?_, ?_, ?_⟩
    · unfold Create
      simp only [hfalse, Bool.false_eq_true, if_false]
      rw [destroy_eq, hheld]
      simp only [htr, List.append_assoc]
    · rw [hrel, hcre]
    · rw [hcre]
      exact hnodup
    · intro h hh
      rw [hcre] at hh
      rw [hrel]
      exact List.count_eq_one_of_mem hnodup hh
    · intro h hh
      rw [hrel] at hh
      rw [hcre]
      exact hh

/-- Witness of C6: on a device whose fourth call (the view of the patch param buffer)
fails, `Create` returns NULL; `create` has created the index buffer 0 and the patch param
buffer 1, and the calls of `Create` end with the release of 0 and of 1. -/
theorem Create_null_iff_create_fails_and_releases_all_witness :
    (Create (failAt 3) fullTables 3 Device.init).1 = none
    ∧ created (newCalls Device.init
        (create (failAt 3) fullTables 3 ⟨D3D11DrawContext.new, Device.init⟩).2.dev) = [0, 1]
    ∧ released (newCalls Device.init
        (create (failAt 3) fullTables 3 ⟨D3D11DrawContext.new, Device.init⟩).2.dev) = []
    ∧ created (newCalls Device.init (Create (failAt 3) fullTables 3 Device.init).2) = [0, 1]
    ∧ released (newCalls Device.init (Create (failAt 3) fullTables 3 Device.init).2) = [0, 1]
    ∧ ∃ made new,
        (create (failAt 3) fullTables 3 ⟨D3D11DrawContext.new, Device.init⟩).2.dev.trace
          = Device.init.trace ++ made
        ∧ new = made ++ (created made).map Call.Release
        ∧ (Create (failAt 3) fullTables 3 Device.init).2.trace = Device.init.trace ++ new
        ∧ allSlots.filterMap
            (create (failAt 3) fullTables 3 ⟨D3D11DrawContext.new, Device.init⟩).2.ctx.get
            = created made
        ∧ released made = []
        ∧ created new = created made
        ∧ released new = created new
        ∧ (created new).Nodup
        ∧ (∀ h ∈ created new, (released new).count h = 1)
        ∧ (∀ h ∈ released new, h ∈ created new) :=
  ⟨rfl, rfl, rfl, rfl, rfl,
    (Create_null_iff_create_fails_and_releases_all (failAt 3) fullTables 3
      Device.init).2.2 rfl⟩

/-! ## C7 : constructor and destructor -/

/-- C7: a freshly constructed context has its ten resource members NULL; for every state
of the context the calls of the destructor are exactly one `Release` for each non-NULL
member, in member order (none for a NULL member); destroying a freshly constructed context
issues no call. -/
theorem constructor_nulls_and_destructor_releases_each_member_once :
    (∀ slot, D3D11DrawContext.new.get slot = none)
    ∧ (∀ (c : D3D11DrawContext) (d : Device),
        (destroy c d).trace = d.trace ++ (allSlots.filterMap c.get).map Call.Release
        ∧ released (newCalls d (destroy c d)) = allSlots.filterMap c.get
        ∧ (newCalls d (destroy c d)).length
            = (allSlots.filter (fun slot => (c.get slot).isSome)).length)
    ∧ (∀ d : Device, destroy D3D11DrawContext.new d = d) := by
  refine ⟨get_new, ?_, ?_⟩
  · intro c d
    have h := destroy_eq c d
    have hnew : newCalls d (destroy c d) = (held c).map Call.Release := by
      simp [newCalls, h]
    refine ⟨by rw [h]; rfl, ?_, ?_⟩
    · rw [hnew]
      simp only [released, List.filterMap_map]
      have : (Call.releases ∘ Call.Release) = some := rfl
      rw [this, List.filterMap_some]
      rfl
    · rw [hnew, List.length_map]
      simp only [held, allSlots, filterMap_cons_toList, List.filterMap_nil, List.filter_cons,
        List.filter_nil, D3D11DrawContext.get]
      cases c.patchIndexBuffer <;> cases c.patchParamBuffer <;>
        cases c.patchParamBufferSRV <;> cases c.fvarDataBuffer <;>
        cases c.fvarDataBufferSRV <;> simp <;>
        cases c.vertexBufferSRV <;> cases c.vertexValenceBuffer <;>
        cases c.vertexValenceBufferSRV <;> cases c.quadOffsetBuffer <;>
        cases c.quadOffsetBufferSRV <;> simp
  · intro d
    rfl

/-! ## C8 : failure of a device call -/

/-- The request for the patch index buffer, as `create` writes it. -/
theorem create_trace_of_CreateBuffer_failed (env : Env) (pt : PatchTables) (nve : Int)
    (s : State) (h : (env.device s.dev.calls).failed = true) :
    (create env pt nve s).2.dev.trace =
      s.dev.trace ++ [Call.GetDevice,
        Call.CreateBuffer
          { ByteWidth := toUINT (toSizeT
              (toSizeT (toInt pt.GetPatchControlVerticesTable.length) * sizeofWord)),
            Usage := .D3D11_USAGE_DYNAMIC,
            BindFlags := .D3D11_BIND_INDEX_BUFFER,
            CPUAccessFlags := .D3D11_CPU_ACCESS_WRITE,
            MiscFlags := 0,
            StructureByteStride := sizeofWord }
          none .patchIndexBuffer true
          ((env.device s.dev.calls).out s.ctx.patchIndexBuffer s.dev.fresh)] := by
  unfold create createPatchIndex
  simp [createBegin, State.emit, CreateBuffer, h, D3D11DrawContext.get]

/-- The trace of `create` when the second call of the index stage fails. -/
theorem create_trace_of_Map_failed (env : Env) (pt : PatchTables) (nve : Int)
    (s : State) (h0 : (env.device s.dev.calls).failed = false)
    (h1 : (env.device (s.dev.calls + 1)).failed = true) :
    (create env pt nve s).2.dev.trace =
      s.dev.trace ++ [Call.GetDevice,
        Call.CreateBuffer
          { ByteWidth := toUINT (toSizeT
              (toSizeT (toInt pt.GetPatchControlVerticesTable.length) * sizeofWord)),
            Usage := .D3D11_USAGE_DYNAMIC,
            BindFlags := .D3D11_BIND_INDEX_BUFFER,
            CPUAccessFlags := .D3D11_CPU_ACCESS_WRITE,
            MiscFlags := 0,
            StructureByteStride := sizeofWord }
          none .patchIndexBuffer false (some s.dev.fresh),
        Call.Map (some s.dev.fresh) true] := by
  unfold create createPatchIndex
  simp [createBegin, State.emit, CreateBuffer, Map, h0, h1, D3D11DrawContext.get,
    D3D11DrawContext.set, HRESULT.out]

/-- C8: for every patch table and every device, `create` returns true if and only if
every call it issued succeeded; no call other than the last one issued has failed (so a
failing call is the last thing `create` does, and it returns false); a member that no
issued call writes is NULL; and when the CreateBuffer or the Map of the index stage fails,
ConvertPatchArrays is not run. -/
theorem create_stops_at_first_failure (env : Env) (pt : PatchTables) (nve : Int)
    (d : Device) :
    ∃ new,
      (create env pt nve ⟨D3D11DrawContext.new, d⟩).2.dev.trace = d.trace ++ new
      ∧ ((create env pt nve ⟨D3D11DrawContext.new, d⟩).1 = true ↔
          ∀ c ∈ new, c.failed = false)
      ∧ (∀ c ∈ new.dropLast, c.failed = false)
      ∧ ((create env pt nve ⟨D3D11DrawContext.new, d⟩).1 = false →
          ∃ init c, new = init ++ [c] ∧ c.failed = true ∧ ∀ x ∈ init, x.failed = false)
      ∧ (∀ slot, (∀ c ∈ new, c.target ≠ some slot) →
          (create env pt nve ⟨D3D11DrawContext.new, d⟩).2.ctx.get slot = none)
      ∧ (((env.device d.calls).failed = true ∨ (env.device (d.calls + 1)).failed = true) →
          ∀ a b, Call.ConvertPatchArrays a b ∉ new) := by
  obtain ⟨new, hseg⟩ := seg_create env pt nve ⟨D3D11DrawContext.new, d⟩
  refine ⟨new, hseg.trace, hseg.flag, hseg.stop, ?_, ?_, ?_⟩
  · intro hfalse
    have hex : ∃ c ∈ new, c.failed = true := by
      by_contra hcon
      have : ∀ c ∈ new, c.failed = false := by
        intro c hc
        cases hcf : c.failed
        · rfl
        · exact absurd ⟨c, hc, hcf⟩ hcon
      rw [hseg.flag.mpr this] at hfalse
      cases hfalse
    obtain ⟨c, hc, hcf⟩ := hex
    have hne : new ≠ [] := List.ne_nil_of_mem hc
    have hsplit := List.dropLast_append_getLast hne
    refine ⟨new.dropLast, new.getLast hne, hsplit.symm, ?_, hseg.stop⟩
    rw [← hsplit] at hc
    rcases List.mem_append.mp hc with hc | hc
    · rw [hseg.stop c hc] at hcf
      cases hcf
    · rw [List.mem_singleton] at hc
      rw [← hc]
      exact hcf
  · intro slot hslot
    rw [hseg.untouched slot hslot]
    exact get_new slot
  · intro hfail a b hmem
    have htr := hseg.trace
    cases h0 : (env.device d.calls).failed
    · have h1 : (env.device (d.calls + 1)).failed = true := by
        rcases hfail with h | h
        · rw [h0] at h
          cases h
        · exact h
      have h := create_trace_of_Map_failed env pt nve ⟨D3D11DrawContext.new, d⟩ h0 h1
      rw [h] at htr
      have := List.append_cancel_left htr
      rw [← this] at hmem
      simp at hmem
    · have h := create_trace_of_CreateBuffer_failed env pt nve ⟨D3D11DrawContext.new, d⟩ h0
      rw [h] at htr
      have := List.append_cancel_left htr
      rw [← this] at hmem
      simp at hmem

/-- Witness of C8: on a device whose second call (the Map of the index buffer) fails,
`create` returns false, and the summary applies with the failing call last. -/
theorem create_stops_at_first_failure_witness :
    (create (failAt 1) fullTables 3 ⟨D3D11DrawContext.new, Device.init⟩).1 = false
    ∧ ∃ new,
      (create (failAt 1) fullTables 3 ⟨D3D11DrawContext.new, Device.init⟩).2.dev.trace
        = Device.init.trace ++ new
      ∧ ((create (failAt 1) fullTables 3 ⟨D3D11DrawContext.new, Device.init⟩).1 = true ↔
          ∀ c ∈ new, c.failed = false)
      ∧ (∀ c ∈ new.dropLast, c.failed = false)
      ∧ ((create (failAt 1) fullTables 3 ⟨D3D11DrawContext.new, Device.init⟩).1 = false →
          ∃ init c, new = init ++ [c] ∧ c.failed = true ∧ ∀ x ∈ init, x.failed = false)
      ∧ (∀ slot, (∀ c ∈ new, c.target ≠ some slot) →
          (create (failAt 1) fullTables 3 ⟨D3D11DrawContext.new, Device.init⟩).2.ctx.get slot
            = none)
      ∧ ((((failAt 1).device Device.init.calls).failed = true ∨
            ((failAt 1).device (Device.init.calls + 1)).failed = true) →
          ∀ a b, Call.ConvertPatchArrays a b ∉ new) :=
  ⟨rfl, create_stops_at_first_failure (failAt 1) fullTables 3 Device.init⟩

/-! ## C9 : empty optional tables -/

theorem isEmpty_of_eq_nil {α : Type} (l : List α) (h : l = []) : l.isEmpty = true := by
  rw [h]
  rfl

theorem paramSlots_of_empty (pt : PatchTables) (h : pt.GetPatchParamTable = []) :
    ∀ slot ∈ createSlots pt, slot ≠ Slot.patchParamBuffer ∧ slot ≠ Slot.patchParamBufferSRV := by
  unfold createSlots paramSlots valenceSlots quadSlots
  rw [isEmpty_of_eq_nil _ h]
  cases pt.GetVertexValenceTable.isEmpty <;> cases pt.GetQuadOffsetsTable.isEmpty <;> simp

theorem valenceSlots_of_empty (pt : PatchTables) (h : pt.GetVertexValenceTable = []) :
    ∀ slot ∈ createSlots pt,
      slot ≠ Slot.vertexValenceBuffer ∧ slot ≠ Slot.vertexValenceBufferSRV := by
  unfold createSlots paramSlots valenceSlots quadSlots
  rw [isEmpty_of_eq_nil _ h]
  cases pt.GetPatchParamTable.isEmpty <;> cases pt.GetQuadOffsetsTable.isEmpty <;> simp

theorem quadSlots_of_empty (pt : PatchTables) (h : pt.GetQuadOffsetsTable = []) :
    ∀ slot ∈ createSlots pt, slot ≠ Slot.quadOffsetBuffer ∧ slot ≠ Slot.quadOffsetBufferSRV := by
  unfold createSlots paramSlots valenceSlots quadSlots
  rw [isEmpty_of_eq_nil _ h]
  cases pt.GetPatchParamTable.isEmpty <;> cases pt.GetVertexValenceTable.isEmpty <;> simp

/-- What a summary of `create` says of two members outside the members it writes. -/
theorem seg_skips {pt : PatchTables} {s : State} {r : Bool × State} {new : List Call}
    (hseg : Seg (createSlots pt) s r new) (a b : Slot)
    (hab : ∀ slot ∈ createSlots pt, slot ≠ a ∧ slot ≠ b) :
    (∀ c ∈ new, c.target ≠ some a ∧ c.target ≠ some b)
    ∧ r.2.ctx.get a = s.ctx.get a ∧ r.2.ctx.get b = s.ctx.get b := by
  have ha : a ∉ createSlots pt := fun h => (hab a h).1 rfl
  have hb : b ∉ createSlots pt := fun h => (hab b h).2 rfl
  refine ⟨?_, hseg.frame a ha, hseg.frame b hb⟩
  intro c hc
  exact ⟨fun h => ha (hseg.target c hc a h), fun h => hb (hseg.target c hc b h)⟩

/-- C9: an empty patch-param, vertex valence or quad offsets table is not an error of
`create` and creates nothing: the lines of that table leave the state as it is, no call
of `create` writes the buffer or view member of that table, both members stay NULL, and
`create` returns true exactly when the calls it did issue succeeded; and
`SetFVarDataTexture` with empty fvarData returns true and leaves the state, trace and
members alike, as it is. -/
theorem empty_tables_create_nothing (env : Env) (pt : PatchTables) (nve : Int) (d : Device) :
    (∃ new,
      (create env pt nve ⟨D3D11DrawContext.new, d⟩).2.dev.trace = d.trace ++ new
      ∧ ((create env pt nve ⟨D3D11DrawContext.new, d⟩).1 = true ↔
          ∀ c ∈ new, c.failed = false)
      ∧ (pt.GetPatchParamTable = [] →
          (∀ c ∈ new, c.target ≠ some Slot.patchParamBuffer ∧
            c.target ≠ some Slot.patchParamBufferSRV)
          ∧ (create env pt nve ⟨D3D11DrawContext.new, d⟩).2.ctx.patchParamBuffer = none
          ∧ (create env pt nve ⟨D3D11DrawContext.new, d⟩).2.ctx.patchParamBufferSRV = none)
      ∧ (pt.GetVertexValenceTable = [] →
          (∀ c ∈ new, c.target ≠ some Slot.vertexValenceBuffer ∧
            c.target ≠ some Slot.vertexValenceBufferSRV)
          ∧ (create env pt nve ⟨D3D11DrawContext.new, d⟩).2.ctx.vertexValenceBuffer = none
          ∧ (create env pt nve ⟨D3D11DrawContext.new, d⟩).2.ctx.vertexValenceBufferSRV
              = none)
      ∧ (pt.GetQuadOffsetsTable = [] →
          (∀ c ∈ new, c.target ≠ some Slot.quadOffsetBuffer ∧
            c.target ≠ some Slot.quadOffsetBufferSRV)
          ∧ (create env pt nve ⟨D3D11DrawContext.new, d⟩).2.ctx.quadOffsetBuffer = none
          ∧ (create env pt nve ⟨D3D11DrawContext.new, d⟩).2.ctx.quadOffsetBufferSRV = none))
    ∧ (pt.GetPatchParamTable = [] → ∀ s, createPatchParam env pt s = (true, s))
    ∧ (pt.GetVertexValenceTable = [] → ∀ s, createVertexValence env pt s = (true, s))
    ∧ (pt.GetQuadOffsetsTable = [] → ∀ s, createQuadOffset env pt s = (true, s))
    ∧ (∀ (fvarWidth : Int) (s : State),
        SetFVarDataTexture env pt fvarWidth [] s = (true, s)) := by
  refine ⟨?_, ?_, ?_, ?_, ?_⟩
  · obtain ⟨new, hseg⟩ := seg_create env pt nve ⟨D3D11DrawContext.new, d⟩
    refine ⟨new, hseg.trace, hseg.flag, ?_, ?_, ?_⟩
    · intro h
      exact seg_skips hseg _ _ (paramSlots_of_empty pt h)
    · intro h
      exact seg_skips hseg _ _ (valenceSlots_of_empty pt h)
    · intro h
      exact seg_skips hseg _ _ (quadSlots_of_empty pt h)
  · intro h s
    exact createPatchParam_of_empty env pt s (isEmpty_of_eq_nil _ h)
  · intro h s
    exact createVertexValence_of_empty env pt s (isEmpty_of_eq_nil _ h)
  · intro h s
    exact createQuadOffset_of_empty env pt s (isEmpty_of_eq_nil _ h)
  · intro w s
    rfl

/-- Witness of C9: tables with nothing but three control-vertex indices on the
all-succeeding device; `create` returns true and the six members of the empty tables are
NULL. -/
theorem empty_tables_create_nothing_witness :
    (create okEnv (indexOnlyTables 3) 3 ⟨D3D11DrawContext.new, Device.init⟩).1 = true
    ∧ ∃ new,
      (create okEnv (indexOnlyTables 3) 3 ⟨D3D11DrawContext.new, Device.init⟩).2.dev.trace
        = Device.init.trace ++ new
      ∧ ((∀ c ∈ new, c.target ≠ some Slot.patchParamBuffer ∧
            c.target ≠ some Slot.patchParamBufferSRV)
          ∧ (create okEnv (indexOnlyTables 3) 3
              ⟨D3D11DrawContext.new, Device.init⟩).2.ctx.patchParamBuffer = none
          ∧ (create okEnv (indexOnlyTables 3) 3
              ⟨D3D11DrawContext.new, Device.init⟩).2.ctx.patchParamBufferSRV = none)
      ∧ ((∀ c ∈ new, c.target ≠ some Slot.vertexValenceBuffer ∧
            c.target ≠ some Slot.vertexValenceBufferSRV)
          ∧ (create okEnv (indexOnlyTables 3) 3
              ⟨D3D11DrawContext.new, Device.init⟩).2.ctx.vertexValenceBuffer = none
          ∧ (create okEnv (indexOnlyTables 3) 3
              ⟨D3D11DrawContext.new, Device.init⟩).2.ctx.vertexValenceBufferSRV = none)
      ∧ ((∀ c ∈ new, c.target ≠ some Slot.quadOffsetBuffer ∧
            c.target ≠ some Slot.quadOffsetBufferSRV)
          ∧ (create okEnv (indexOnlyTables 3) 3
              ⟨D3D11DrawContext.new, Device.init⟩).2.ctx.quadOffsetBuffer = none
          ∧ (create okEnv (indexOnlyTables 3) 3
              ⟨D3D11DrawContext.new, Device.init⟩).2.ctx.quadOffsetBufferSRV = none) := by
  refine ⟨rfl, ?_⟩
  obtain ⟨new, htr, _, hpp, hvv, hqo⟩ :=
    (empty_tables_create_nothing okEnv (indexOnlyTables 3) 3 Device.init).1
  exact ⟨new, htr, hpp rfl, hvv rfl, hqo rfl⟩

/-! ## C10 : the vertex buffer view -/

/-- C10: `updateVertexTexture` issues, after fetching the device, exactly one view request,
on `vbo`, with format R32_FLOAT, first element 0 and NumElements the product
numVertices * numVertexElements reduced modulo 2^32; what the device stores through the
out-pointer becomes vertexBufferSRV (the new view when the request succeeds) and no
other member changes. -/
theorem updateVertexTexture_requests_one_view (env : Env) (vbo : Option Handle)
    (numVertices numVertexElements : Int) (s : State) :
    (updateVertexTexture env vbo numVertices numVertexElements s).dev.trace =
      s.dev.trace ++
        [Call.GetDevice,
         Call.CreateShaderResourceView vbo
           { Format := .DXGI_FORMAT_R32_FLOAT,
             ViewDimension := .D3D11_SRV_DIMENSION_BUFFER,
             FirstElement := 0,
             NumElements := ((numVertices * numVertexElements) % 4294967296).toNat }
           .vertexBufferSRV (env.device s.dev.calls).failed
           ((env.device s.dev.calls).out s.ctx.vertexBufferSRV s.dev.fresh)]
    ∧ (updateVertexTexture env vbo numVertices numVertexElements s).ctx =
        s.ctx.set .vertexBufferSRV
          ((env.device s.dev.calls).out s.ctx.vertexBufferSRV s.dev.fresh)
    ∧ ((env.device s.dev.calls).failed = false →
        (updateVertexTexture env vbo numVertices numVertexElements s).ctx.vertexBufferSRV
          = some s.dev.fresh)
    ∧ (∀ slot, slot ≠ Slot.vertexBufferSRV →
        (updateVertexTexture env vbo numVertices numVertexElements s).ctx.get slot
          = s.ctx.get slot) := by
  have hctx : (updateVertexTexture env vbo numVertices numVertexElements s).ctx =
      s.ctx.set .vertexBufferSRV
        ((env.device s.dev.calls).out s.ctx.vertexBufferSRV s.dev.fresh) := by
    simp [updateVertexTexture, CreateShaderResourceView, State.emit, D3D11DrawContext.get]
  refine ⟨?_, hctx, ?_, ?_⟩
  · simp [updateVertexTexture, CreateShaderResourceView, State.emit, numElements_eq,
      D3D11DrawContext.get]
  · intro hf
    rw [hctx]
    simp [HRESULT.out, hf, D3D11DrawContext.set]
  · intro slot hne
    rw [hctx]
    exact get_set_ne _ _ _ _ hne

/-- Witness of C10: 65536 vertices of 65537 elements on the all-succeeding device; the
product 2^32 + 2^16 is requested as 2^16 elements and the new view is stored. -/
theorem updateVertexTexture_requests_one_view_witness :
    (updateVertexTexture okEnv (some 100) 65536 65537
        ⟨D3D11DrawContext.new, Device.init⟩).dev.trace =
      [Call.GetDevice,
       Call.CreateShaderResourceView (some 100)
         { Format := .DXGI_FORMAT_R32_FLOAT,
           ViewDimension := .D3D11_SRV_DIMENSION_BUFFER,
           FirstElement := 0,
           NumElements := 65536 }
         .vertexBufferSRV false (some 0)]
    ∧ (updateVertexTexture okEnv (some 100) 65536 65537
        ⟨D3D11DrawContext.new, Device.init⟩).ctx.vertexBufferSRV = some 0 :=
  ⟨(updateVertexTexture_requests_one_view okEnv (some 100) 65536 65537
      ⟨D3D11DrawContext.new, Device.init⟩).1,
   (updateVertexTexture_requests_one_view okEnv (some 100) 65536 65537
      ⟨D3D11DrawContext.new, Device.init⟩).2.2.1 rfl⟩

end OpenSubdiv.Osd
